import Mathlib

/-!
# btk::VTKChartTimeSeries — bounds, pan/zoom interaction and plot collection

Shallow embedding of `Code/VisSupport/VTK/btkVTKChartTimeSeries.cpp`.

Modelling conventions
* `double` and `float` values are exact rationals (`ℚ`): rounding, infinities
  and NaN are abstracted away.  A division by a zero screen span (an infinity
  or a NaN in C++) evaluates to `0` in `ℚ`: `MouseMoveEvent.pan` is the image
  of the code for a non-zero screen span only, and `MouseMoveEvent.panIEEE`
  evaluates the same statements with the special values of `double` arithmetic.
* The chart object is a record; every member function is a function from the
  record (and its arguments) to the returned value and the new record.
* `vtkAxis`, `vtkPlot`, `vtkContextMouseEvent` and the scene belong to the VTK
  library; only the members read or written by the chart are kept.
* An operation whose C++ behaviour is undefined (moving a list iterator outside
  `[begin, end]`) returns `none`.
-/

namespace btk

/-- Value of `std::numeric_limits<double>::max()`: the largest finite double. -/
def DBL_MAX : ℚ := 2 ^ 1024 - 2 ^ 971

/-- Value of `std::numeric_limits<double>::min()`: the smallest positive
normalised double, `2^-1022`. -/
def DBL_MIN : ℚ := 1 / 2 ^ 1022

/-- Component `i` of a two-element array (`p[0]`, `p[1]`). -/
def at2 (p : ℚ × ℚ) (i : Nat) : ℚ :=
  if i = 0 then p.1 else p.2

/-- A `double[4]` holding `xMin, xMax, yMin, yMax` in this order. -/
structure Bounds4 where
  xMin : ℚ
  xMax : ℚ
  yMin : ℚ
  yMax : ℚ
deriving DecidableEq

/-- Array access `b[i]` on a `double[4]`. -/
def Bounds4.at (b : Bounds4) (i : Nat) : ℚ :=
  match i with
  | 0 => b.xMin
  | 1 => b.xMax
  | 2 => b.yMin
  | _ => b.yMax

/-- The members of `vtkAxis` used by the chart: the displayed range and the two
screen endpoints of the axis. -/
structure vtkAxis where
  Minimum : ℚ
  Maximum : ℚ
  Point1 : ℚ × ℚ
  Point2 : ℚ × ℚ
deriving DecidableEq

/-- Effect of `vtkAxis::SetRange(minimum, maximum)`: both ends of the range are stored. -/
def vtkAxis.SetRange (a : vtkAxis) (minimum maximum : ℚ) : vtkAxis :=
  { a with Minimum := minimum, Maximum := maximum }

/-- A `vtkColor3ub`: red, green and blue components. -/
abbrev vtkColor3ub : Type := Nat × Nat × Nat

/-- The members of `vtkPlot` used by the chart: the visibility flag, the
bounds reported by `GetBounds` once the plot is up to date, and the colour of
its pen. -/
structure vtkPlot where
  Visible : Bool
  Bounds : Bounds4
  PenColor : vtkColor3ub
deriving DecidableEq

/-- The colours held by a `vtkColorSeries`. -/
structure vtkColorSeries where
  Colors : List vtkColor3ub
deriving DecidableEq

/-- Effect of `vtkColorSeries::GetColorRepeating(index)`: the colour at
position `index` modulo the number of colours. -/
def vtkColorSeries.GetColorRepeating (c : vtkColorSeries) (index : Int) : vtkColor3ub :=
  c.Colors.getD (index.toNat % c.Colors.length) (0, 0, 0)

/-- The member of `vtkChartLegend` written by the chart: its anchor point. -/
structure vtkChartLegend where
  Point : ℚ × ℚ
deriving DecidableEq

/-- Effect of `vtkChartLegend::SetPoint(x, y)`. -/
def vtkChartLegend.SetPoint (legend : vtkChartLegend) (x y : ℚ) : vtkChartLegend :=
  { legend with Point := (x, y) }

/-- The matrix of a `vtkTransform2D`, rows `(m00 m01 m02)` and `(m10 m11 m12)`;
the third row stays `(0 0 1)` under `Identity`, `Translate` and `Scale`. -/
structure vtkTransform2D where
  m00 : ℚ
  m01 : ℚ
  m02 : ℚ
  m10 : ℚ
  m11 : ℚ
  m12 : ℚ
deriving DecidableEq

/-- Effect of `vtkTransform2D::Identity()`. -/
def vtkTransform2D.Identity : vtkTransform2D :=
  { m00 := 1, m01 := 0, m02 := 0, m10 := 0, m11 := 1, m12 := 0 }

/-- Effect of `vtkTransform2D::Translate(x, y)`: the matrix is multiplied on
the right by the translation matrix. -/
def vtkTransform2D.Translate (t : vtkTransform2D) (x y : ℚ) : vtkTransform2D :=
  { t with
    m02 := t.m00 * x + t.m01 * y + t.m02
    m12 := t.m10 * x + t.m11 * y + t.m12 }

/-- Effect of `vtkTransform2D::Scale(sx, sy)`: the matrix is multiplied on the
right by the scaling matrix. -/
def vtkTransform2D.Scale (t : vtkTransform2D) (sx sy : ℚ) : vtkTransform2D :=
  { t with
    m00 := t.m00 * sx
    m01 := t.m01 * sy
    m10 := t.m10 * sx
    m11 := t.m11 * sy }

/-- Image of the point `p` under the transform (`TransformPoints`). -/
def vtkTransform2D.TransformPoint (t : vtkTransform2D) (p : ℚ × ℚ) : ℚ × ℚ :=
  (t.m00 * p.1 + t.m01 * p.2 + t.m02, t.m10 * p.1 + t.m11 * p.2 + t.m12)

/-- The members of `vtkContextMouseEvent` read by the handlers. -/
structure vtkContextMouseEvent where
  ScreenPos : ℚ × ℚ
  LastScreenPos : ℚ × ℚ
deriving DecidableEq

/-- Modelled from the spec: the zoom-mode enumeration of `btkVTKChartTimeSeries.h`
(header not available); value as documented at `SetZoomMode`: both directions. -/
def BOTH : Int := 0

/-- Modelled from the spec: the zoom-mode enumeration of `btkVTKChartTimeSeries.h`
(header not available); value as documented at `SetZoomMode`: only horizontal. -/
def HORIZONTAL : Int := 1

/-- Modelled from the spec: the zoom-mode enumeration of `btkVTKChartTimeSeries.h`
(header not available); value as documented at `SetZoomMode`: only vertical. -/
def VERTICAL : Int := 2

/-- Values of the plot-type enumeration of the VTK class `vtkChart`: a line plot. -/
def LINE : Int := 0

/-- Values of the plot-type enumeration of the VTK class `vtkChart`: a points plot. -/
def POINTS : Int := 1

/-- Values of the plot-type enumeration of the VTK class `vtkChart`: a bar plot. -/
def BAR : Int := 2

/-- An `int[4]` holding the borders `left, bottom, right, top` in this order. -/
structure Borders4 where
  left : Int
  bottom : Int
  right : Int
  top : Int
deriving DecidableEq

/-- Array access `b[i]` on the `int[4]` of the borders. -/
def Borders4.at (b : Borders4) (i : Nat) : Int :=
  match i with
  | 0 => b.left
  | 1 => b.bottom
  | 2 => b.right
  | _ => b.top

/-- State of a `VTKChartTimeSeries` object.  `SceneDirty` records the calls
`this->Scene->SetDirty(true)`.  `Point1`, `Point2`, `Geometry`, `ShowLegend` and
`Title` are the members inherited from `vtkChart`; `Title` is `none` when the
title pointer is null. -/
structure VTKChartTimeSeries where
  mp_AxisX : vtkAxis
  mp_AxisY : vtkAxis
  mp_Plots : List vtkPlot
  mp_Bounds : Bounds4
  m_InteractionEnabled : Bool
  m_ZoomMode : Int
  m_BoundsEnabled : Bool
  m_ChartBoundsValid : Bool
  m_PlotsTransformValid : Bool
  SceneDirty : Bool
  mp_Legend : Option vtkChartLegend
  mp_Colors : Option vtkColorSeries
  mp_Borders : Borders4
  m_BordersChanged : Bool
  mp_PlotsTransform : vtkTransform2D
  Point1 : Int × Int
  Point2 : Int × Int
  Geometry : Int × Int
  ShowLegend : Bool
  Title : Option String
deriving DecidableEq

namespace VTKChartTimeSeries

/-- Accessor `GetBounds()`. -/
def GetBounds (s : VTKChartTimeSeries) : Bounds4 :=
  s.mp_Bounds

/-- Function `SetBounds(double bounds[4])`. -/
def SetBounds (s : VTKChartTimeSeries) (bounds : Bounds4) : VTKChartTimeSeries :=
  if bounds.at 0 = s.mp_Bounds.at 0 ∧ bounds.at 1 = s.mp_Bounds.at 1
      ∧ bounds.at 2 = s.mp_Bounds.at 2 ∧ bounds.at 3 = s.mp_Bounds.at 3 then
    s
  else
    { s with
      mp_Bounds := { xMin := bounds.at 0, xMax := bounds.at 1, yMin := bounds.at 2, yMax := bounds.at 3 }
      mp_AxisX := s.mp_AxisX.SetRange (bounds.at 0) (bounds.at 1)
      mp_AxisY := s.mp_AxisY.SetRange (bounds.at 2) (bounds.at 3)
      m_ChartBoundsValid := true
      m_PlotsTransformValid := false
      SceneDirty := true }

/-- Modelled from the spec: the inline overload `SetBounds(xMin, xMax, yMin, yMax)`
of `btkVTKChartTimeSeries.h` (header not available), the convenient method that
forwards its four arguments to `SetBounds(double bounds[4])`. -/
def SetBounds4 (s : VTKChartTimeSeries) (xMin xMax yMin yMax : ℚ) : VTKChartTimeSeries :=
  s.SetBounds { xMin := xMin, xMax := xMax, yMin := yMin, yMax := yMax }

/-- Function `Update()`: every plot (and the legend) refreshes its own cache.  The
plots are opaque and `vtkPlot.Bounds` already stands for the up-to-date bounds,
so no modelled member changes. -/
def Update (s : VTKChartTimeSeries) : VTKChartTimeSeries :=
  s

/-- Local variables `x[2]`, `y[2]` and `validBounds` of `RecalculateBounds`. -/
structure RecalcLocals where
  x0 : ℚ
  x1 : ℚ
  y0 : ℚ
  y1 : ℚ
  validBounds : Bool
deriving DecidableEq

/-- Initial values of the locals of `RecalculateBounds`:
`x = {max(), min()}`, `y = {x[0], x[1]}`, `validBounds = false`. -/
def RecalculateBounds.init : RecalcLocals :=
  { x0 := DBL_MAX, x1 := DBL_MIN, y0 := DBL_MAX, y1 := DBL_MIN, validBounds := false }

/-- One iteration of the loop of `RecalculateBounds` over the plots. -/
def RecalculateBounds.body (v : RecalcLocals) (plot : vtkPlot) : RecalcLocals :=
  if !plot.Visible then
    v
  else
    let bounds := plot.Bounds
    { x0 := min v.x0 (bounds.at 0)
      x1 := max v.x1 (bounds.at 1)
      y0 := min v.y0 (bounds.at 2)
      y1 := max v.y1 (bounds.at 3)
      validBounds := true }

/-- Function `RecalculateBounds()`. -/
def RecalculateBounds (s : VTKChartTimeSeries) : VTKChartTimeSeries :=
  let s := s.Update
  let v := s.mp_Plots.foldl RecalculateBounds.body RecalculateBounds.init
  let v := if !v.validBounds then { v with x0 := 0, x1 := 0, y0 := 0, y1 := 0 } else v
  let r := (v.y1 - v.y0) / 20
  let y0 := v.y0 - r
  let y1 := v.y1 + r
  s.SetBounds4 v.x0 v.x1 y0 y1

/-- Function `GetAxis(int axisIndex)`: `none` is the null pointer. -/
def GetAxis (s : VTKChartTimeSeries) (axisIndex : Int) : Option vtkAxis :=
  if axisIndex = 0 then some s.mp_AxisY
  else if axisIndex = 1 then some s.mp_AxisX
  else none

/-- Write through the pointer returned by `GetAxis(axisIndex)`. -/
def putAxis (s : VTKChartTimeSeries) (axisIndex : Int) (a : vtkAxis) : VTKChartTimeSeries :=
  if axisIndex = 0 then { s with mp_AxisY := a }
  else if axisIndex = 1 then { s with mp_AxisX := a }
  else s

/-- Inside the loop of `MouseMoveEvent`, for the axis `axis` of dimension `i`:
the statements from `axis->GetPoint1(pt1)` to `axis->SetRange(min, max)`.
When the two screen endpoints coincide along `i` the quotient `scale` is `0`
here whereas the code gets an infinity or a NaN (see `MouseMoveEvent.panIEEE`). -/
def MouseMoveEvent.pan (m_BoundsEnabled : Bool) (mp_Bounds : Bounds4)
    (mouse : vtkContextMouseEvent) (i : Nat) (axis : vtkAxis) : vtkAxis :=
  let pt1 := axis.Point1
  let pt2 := axis.Point2
  let min0 := axis.Minimum
  let max0 := axis.Maximum
  let scale := (max0 - min0) / (at2 pt2 i - at2 pt1 i)
  let delta := (at2 mouse.LastScreenPos i - at2 mouse.ScreenPos i) * scale
  let min1 := axis.Minimum + delta
  let max1 := axis.Maximum + delta
  if m_BoundsEnabled = true ∧ min1 < mp_Bounds.at (i * 2) then
    axis.SetRange (mp_Bounds.at (i * 2)) axis.Maximum
  else if m_BoundsEnabled = true ∧ max1 > mp_Bounds.at (i * 2 + 1) then
    axis.SetRange axis.Minimum (mp_Bounds.at (i * 2 + 1))
  else
    axis.SetRange min1 max1

/-- A value of `double` arithmetic with the special values of IEEE 754: a
finite number (exact, rounding abstracted as elsewhere), an infinity or a NaN.
The sign of a zero is not kept: a zero divisor stands for `+0.0`, which is what
the difference of two equal numbers gives. -/
inductive Double where
  | finite (q : ℚ)
  | infinity (negative : Bool)
  | NaN
deriving DecidableEq

/-- Negation of a `double`. -/
def Double.neg : Double → Double
  | Double.finite q => Double.finite (-q)
  | Double.infinity n => Double.infinity (!n)
  | Double.NaN => Double.NaN

/-- Sum of two `double`s: a NaN operand or opposite infinities give a NaN. -/
def Double.add : Double → Double → Double
  | Double.NaN, _ => Double.NaN
  | _, Double.NaN => Double.NaN
  | Double.finite a, Double.finite b => Double.finite (a + b)
  | Double.finite _, Double.infinity n => Double.infinity n
  | Double.infinity n, Double.finite _ => Double.infinity n
  | Double.infinity n, Double.infinity m => if n = m then Double.infinity n else Double.NaN

/-- Difference of two `double`s. -/
def Double.sub (a b : Double) : Double :=
  a.add b.neg

/-- Product of two `double`s: a NaN operand or zero times an infinity give a NaN. -/
def Double.mul : Double → Double → Double
  | Double.NaN, _ => Double.NaN
  | _, Double.NaN => Double.NaN
  | Double.finite a, Double.finite b => Double.finite (a * b)
  | Double.finite a, Double.infinity n =>
    if a = 0 then Double.NaN else Double.infinity (xor (decide (a < 0)) n)
  | Double.infinity n, Double.finite b =>
    if b = 0 then Double.NaN else Double.infinity (xor n (decide (b < 0)))
  | Double.infinity n, Double.infinity m => Double.infinity (xor n m)

/-- Quotient of two `double`s: zero by zero and infinity by infinity give a
NaN, a non-zero number by zero gives an infinity of the sign of the number. -/
def Double.div : Double → Double → Double
  | Double.NaN, _ => Double.NaN
  | _, Double.NaN => Double.NaN
  | Double.finite a, Double.finite b =>
    if b = 0 then (if a = 0 then Double.NaN else Double.infinity (decide (a < 0)))
    else Double.finite (a / b)
  | Double.finite _, Double.infinity _ => Double.finite 0
  | Double.infinity n, Double.finite b => Double.infinity (xor n (decide (b < 0)))
  | Double.infinity _, Double.infinity _ => Double.NaN

/-- Comparison `a < b` of two `double`s: false as soon as an operand is a NaN. -/
def Double.lt : Double → Double → Bool
  | Double.NaN, _ => false
  | _, Double.NaN => false
  | Double.finite a, Double.finite b => decide (a < b)
  | Double.finite _, Double.infinity n => !n
  | Double.infinity n, Double.finite _ => n
  | Double.infinity n, Double.infinity m => n && !m

/-- Comparison `a == b` of two `double`s: false as soon as an operand is a NaN. -/
def Double.eq : Double → Double → Bool
  | Double.finite a, Double.finite b => decide (a = b)
  | Double.infinity n, Double.infinity m => decide (n = m)
  | _, _ => false

/-- The statements of `MouseMoveEvent.pan` (from `axis->GetPoint1(pt1)` to the
call `axis->SetRange(min, max)`) evaluated with the special values of `double`
arithmetic, the members of the axis, of the event and of the bounds being
finite: the pair `(min, max)` handed to `axis->SetRange`. -/
def MouseMoveEvent.panIEEE (m_BoundsEnabled : Bool) (mp_Bounds : Bounds4)
    (mouse : vtkContextMouseEvent) (i : Nat) (axis : vtkAxis) : Double × Double :=
  let pt1 := axis.Point1
  let pt2 := axis.Point2
  let min0 := Double.finite axis.Minimum
  let max0 := Double.finite axis.Maximum
  let scale := (max0.sub min0).div (Double.finite (at2 pt2 i - at2 pt1 i))
  let delta := (Double.finite (at2 mouse.LastScreenPos i - at2 mouse.ScreenPos i)).mul scale
  let min1 := (Double.finite axis.Minimum).add delta
  let max1 := (Double.finite axis.Maximum).add delta
  if m_BoundsEnabled = true ∧ min1.lt (Double.finite (mp_Bounds.at (i * 2))) = true then
    (Double.finite (mp_Bounds.at (i * 2)), Double.finite axis.Maximum)
  else if m_BoundsEnabled = true ∧ (Double.finite (mp_Bounds.at (i * 2 + 1))).lt max1 = true then
    (Double.finite axis.Minimum, Double.finite (mp_Bounds.at (i * 2 + 1)))
  else
    (min1, max1)

/-- Body of the loop `for (int i = 0 ; i < 2 ; ++i)` of `MouseMoveEvent`:
the axis `GetAxis(1-i)` is fetched and updated in place. -/
def MouseMoveEvent.body (mouse : vtkContextMouseEvent) (s : VTKChartTimeSeries) (i : Nat) :
    VTKChartTimeSeries :=
  let mai : Int := 1 - (i : Int)
  match s.GetAxis mai with
  | none => s
  | some axis => s.putAxis mai (MouseMoveEvent.pan s.m_BoundsEnabled s.mp_Bounds mouse i axis)

/-- Function `MouseMoveEvent(mouse)`: returned flag and new state. -/
def MouseMoveEvent (s : VTKChartTimeSeries) (mouse : vtkContextMouseEvent) :
    Bool × VTKChartTimeSeries :=
  if s.m_InteractionEnabled then
    let s := (List.range 2).foldl (MouseMoveEvent.body mouse) s
    (true, { s with m_PlotsTransformValid := false, SceneDirty := true })
  else
    (true, s)

/-- Inside the loop of `MouseWheelEvent`, for the selected axis `axis` of
dimension `i`: the statements from `axis->GetMinimum()` to
`axis->RecalculateTickSpacing()` (which changes no modelled member). -/
def MouseWheelEvent.zoom (m_BoundsEnabled : Bool) (mp_Bounds : Bounds4)
    (delta : Int) (i : Nat) (axis : vtkAxis) : vtkAxis :=
  let min0 := axis.Minimum
  let max0 := axis.Maximum
  let frac := (max0 - min0) * (5 / 100)
  let min1 := min0 + (delta : ℚ) * frac
  let max1 := max0 - (delta : ℚ) * frac
  let min2 := if m_BoundsEnabled = true ∧ min1 < mp_Bounds.at (i * 2) then
    mp_Bounds.at (i * 2) else min1
  let max2 := if m_BoundsEnabled = true ∧ max1 > mp_Bounds.at (i * 2 + 1) then
    mp_Bounds.at (i * 2 + 1) else max1
  axis.SetRange min2 max2

/-- Body of the loop `for (int i = 0 ; i < 2 ; ++i)` of `MouseWheelEvent`. -/
def MouseWheelEvent.body (delta : Int) (s : VTKChartTimeSeries) (i : Nat) :
    VTKChartTimeSeries :=
  let mai : Int := 1 - (i : Int)
  if s.m_ZoomMode = (i : Int) ∨ s.m_ZoomMode = BOTH then
    match s.GetAxis mai with
    | none => s
    | some axis => s.putAxis mai (MouseWheelEvent.zoom s.m_BoundsEnabled s.mp_Bounds delta i axis)
  else
    s

/-- Function `MouseWheelEvent(mouse, delta)`: returned flag and new state
(`mouse` is not used). -/
def MouseWheelEvent (s : VTKChartTimeSeries) (delta : Int) : Bool × VTKChartTimeSeries :=
  if s.m_InteractionEnabled then
    let s := (List.range 2).foldl (MouseWheelEvent.body delta) s
    (true, { s with m_PlotsTransformValid := false, SceneDirty := true })
  else
    (true, s)

/-- Effect of `vtkstd::advance(it, n)` on an iterator of a list of `size`
elements; an iterator is its distance from `begin()`, `size` being `end()`.
Moving outside `[begin(), end()]` is undefined: `none`. -/
def advance (size : Nat) (it : Nat) (n : Int) : Option Nat :=
  if 0 ≤ (it : Int) + n ∧ (it : Int) + n ≤ (size : Int) then some ((it : Int) + n).toNat
  else none

/-- Function `GetNumberOfPlots()`. -/
def GetNumberOfPlots (s : VTKChartTimeSeries) : Int :=
  (s.mp_Plots.length : Int)

/-- Function `RemovePlot(vtkIdType index)`: returned flag and new state, or
`none` when the iterator arithmetic is undefined. -/
def RemovePlot (s : VTKChartTimeSeries) (index : Int) : Option (Bool × VTKChartTimeSeries) :=
  if (s.mp_Plots.length : Int) > index then
    match advance s.mp_Plots.length 0 index with
    | none => none
    | some it =>
      some (true, { s with
        mp_Plots := s.mp_Plots.eraseIdx it
        m_ChartBoundsValid := false
        SceneDirty := true })
  else
    some (false, s)

/-- Function `GetPlot(vtkIdType index)`: `some none` is the null pointer,
`some (some p)` the plot `*it`, and `none` undefined iterator arithmetic.
The chart itself is not modified. -/
def GetPlot (s : VTKChartTimeSeries) (index : Int) : Option (Option vtkPlot) :=
  match advance s.mp_Plots.length 0 index with
  | none => none
  | some it =>
    if it = s.mp_Plots.length then some none
    else some s.mp_Plots[it]?

/-- Effect of the VTK function `vtkChart::SetBorders(left, bottom, right, top)`:
the two corners of the plotting rectangle are placed inside the geometry, a
negative border counting as `0`. -/
def vtkChart_SetBorders (s : VTKChartTimeSeries) (left bottom right top : Int) :
    VTKChartTimeSeries :=
  { s with
    Point1 := (if left ≥ 0 then left else 0, if bottom ≥ 0 then bottom else 0)
    Point2 := (if right ≥ 0 then s.Geometry.1 - right else s.Geometry.1,
      if top ≥ 0 then s.Geometry.2 - top else s.Geometry.2) }

/-- Function `SetBorders(left, bottom, right, top)`. -/
def SetBorders (s : VTKChartTimeSeries) (left bottom right top : Int) : VTKChartTimeSeries :=
  if s.mp_Borders.at 0 = left ∧ s.mp_Borders.at 0 = left ∧ s.mp_Borders.at 0 = left
      ∧ s.mp_Borders.at 0 = left then
    s
  else
    let s := s.vtkChart_SetBorders left bottom right top
    { s with
      mp_Borders :=
        { left := s.Point1.1
          bottom := s.Point1.2
          right := s.Geometry.1 - s.Point2.1
          top := s.Geometry.2 - s.Point2.2 }
      m_BordersChanged := true
      SceneDirty := true }

/-- Calls made by the chart to its collaborators (plots, legend, axes, grid,
painter) while it updates and paints.  Of the arguments only the position of
the plot, the appended transform and the title are kept. -/
inductive Call where
  | PlotUpdate (i : Nat)
  | LegendUpdate
  | AxisXUpdate
  | AxisYUpdate
  | GridPaint
  | SetClipping
  | PushMatrix
  | AppendTransform (t : vtkTransform2D)
  | PlotPaint (i : Nat)
  | PopMatrix
  | DisableClipping
  | SetPen
  | AxisXPaint
  | AxisYPaint
  | LegendPaint
  | DrawTitle (title : String)
deriving DecidableEq

/-- The calls made by `Update()`: every plot is updated in order, then the
legend when there is one and it is shown. -/
def Update.calls (s : VTKChartTimeSeries) : List Call :=
  (List.range s.mp_Plots.length).map Call.PlotUpdate
    ++ (if s.mp_Legend.isSome = true ∧ s.ShowLegend = true then [Call.LegendUpdate] else [])

/-- Function `RecalculatePlotsTransform()`. -/
def RecalculatePlotsTransform (s : VTKChartTimeSeries) : VTKChartTimeSeries :=
  if s.mp_AxisX.Maximum = s.mp_AxisX.Minimum then
    s
  else
    let min0 := s.mp_AxisX.Point1
    let max0 := s.mp_AxisX.Point2
    let scaleX := (at2 max0 0 - at2 min0 0) / (s.mp_AxisX.Maximum - s.mp_AxisX.Minimum)
    if s.mp_AxisY.Maximum = s.mp_AxisY.Minimum then
      s
    else
      let min1 := s.mp_AxisY.Point1
      let max1 := s.mp_AxisY.Point2
      let scaleY := (at2 max1 1 - at2 min1 1) / (s.mp_AxisY.Maximum - s.mp_AxisY.Minimum)
      let t := vtkTransform2D.Identity
      let t := t.Translate (s.Point1.1 : ℚ) (s.Point1.2 : ℚ)
      let t := t.Scale scaleX scaleY
      let t := t.Translate (-s.mp_AxisX.Minimum) (-s.mp_AxisY.Minimum)
      { s with mp_PlotsTransform := t, m_PlotsTransformValid := true }

/-- In `Paint`, the block run when the geometry or the borders changed: the
geometry and the borders are applied, both axes are placed along the bottom
and left edges of the plotting rectangle, the legend is anchored at its
top-right corner. -/
def Paint.layout (s : VTKChartTimeSeries) (geometry : Int × Int) : VTKChartTimeSeries :=
  let s := { s with Geometry := geometry }
  let s := s.vtkChart_SetBorders (s.mp_Borders.at 0) (s.mp_Borders.at 1) (s.mp_Borders.at 2)
    (s.mp_Borders.at 3)
  let s := { s with
    mp_AxisX := { s.mp_AxisX with
      Point1 := ((s.Point1.1 : ℚ), (s.Point1.2 : ℚ))
      Point2 := ((s.Point2.1 : ℚ), (s.Point1.2 : ℚ)) }
    mp_AxisY := { s.mp_AxisY with
      Point1 := ((s.Point1.1 : ℚ), (s.Point1.2 : ℚ))
      Point2 := ((s.Point1.1 : ℚ), (s.Point2.2 : ℚ)) } }
  let s := { s with
    mp_Legend := s.mp_Legend.map
      (fun legend => vtkChartLegend.SetPoint legend (s.Point2.1 : ℚ) (s.Point2.2 : ℚ)) }
  { s with m_BordersChanged := false, m_PlotsTransformValid := false }

/-- In `Paint`, the drawing calls, from `mp_AxisX->Update()` to the title. -/
def Paint.draw (s : VTKChartTimeSeries) : List Call :=
  [Call.AxisXUpdate, Call.AxisYUpdate, Call.GridPaint, Call.SetClipping, Call.PushMatrix,
    Call.AppendTransform s.mp_PlotsTransform]
    ++ (List.range s.mp_Plots.length).map Call.PlotPaint
    ++ [Call.PopMatrix, Call.DisableClipping, Call.SetPen, Call.AxisXPaint, Call.AxisYPaint]
    ++ (if s.mp_Legend.isSome = true ∧ s.ShowLegend = true then [Call.LegendPaint] else [])
    ++ (match s.Title with
      | some title => [Call.DrawTitle title]
      | none => [])

/-- Function `Paint(painter)`: returned flag, new state and the calls made to
the collaborators.  `sceneWidth` and `sceneHeight` are the values reported by
`GetScene()->GetSceneWidth()` and `GetScene()->GetSceneHeight()`. -/
def Paint (s : VTKChartTimeSeries) (sceneWidth sceneHeight : Int) :
    Bool × VTKChartTimeSeries × List Call :=
  let geometry : Int × Int := (sceneWidth, sceneHeight)
  if geometry.1 = 0 ∨ geometry.2 = 0 then
    (false, s, [])
  else
    let calls0 := Update.calls s
    let s := s.Update
    let s :=
      if geometry.1 ≠ s.Geometry.1 ∨ geometry.2 ≠ s.Geometry.2 ∨ s.m_BordersChanged = true then
        Paint.layout s geometry
      else s
    let calls1 := if !s.m_ChartBoundsValid then Update.calls s else []
    let s := if !s.m_ChartBoundsValid then s.RecalculateBounds else s
    let s := if !s.m_PlotsTransformValid then s.RecalculatePlotsTransform else s
    (true, s, calls0 ++ calls1 ++ Paint.draw s)

/-- Function `AddPlot(int type)`: returned pointer (`none` is null) and new
state.  `line` is the object that `vtkPlotLine::New()` returns when the type is
`LINE`; the binding of the plot to the two axes of the chart is not kept. -/
def AddPlot (s : VTKChartTimeSeries) (type : Int) (line : vtkPlot) :
    Option vtkPlot × VTKChartTimeSeries :=
  let color : vtkColor3ub :=
    match s.mp_Colors with
    | some colors => colors.GetColorRepeating (s.mp_Plots.length : Int)
    | none => (0, 0, 0)
  let plot : Option vtkPlot := if type = LINE then some { line with PenColor := color } else none
  match plot with
  | some p =>
    (some p, { s with
      mp_Plots := s.mp_Plots ++ [p]
      m_ChartBoundsValid := false
      SceneDirty := true })
  | none => (none, s)

/-- Function `ClearPlots()`. -/
def ClearPlots (s : VTKChartTimeSeries) : VTKChartTimeSeries :=
  { s with mp_Plots := [], m_ChartBoundsValid := false, SceneDirty := true }

/-- Function `GetNumberOfAxes()`. -/
def GetNumberOfAxes (_s : VTKChartTimeSeries) : Int :=
  2

/-- A sequence of `AddPlot` calls, each with its type and the line object that
would be created for it. -/
def AddPlots (s : VTKChartTimeSeries) (calls : List (Int × vtkPlot)) : VTKChartTimeSeries :=
  calls.foldl (fun t c => (t.AddPlot c.1 c.2).2) s

/-- Constructor `VTKChartTimeSeries()`, reached through `New()`.  `base` holds
the members set by the constructor of the base class `vtkChart` (`Point1`,
`Point2`, `Geometry`, `ShowLegend`, `Title` and the dirty mark of the scene),
`axisX` and `axisY` are the objects returned by `vtkAxis::New()`; every other
member is set here.  The grid and the position, title, visibility and
behaviour of the axes are not kept. -/
def New (base : VTKChartTimeSeries) (axisX axisY : vtkAxis) : VTKChartTimeSeries :=
  let s : VTKChartTimeSeries :=
    { base with
      mp_Legend := none
      mp_Colors := none
      mp_AxisX := axisX.SetRange 0 0
      mp_AxisY := axisY.SetRange 0 0
      m_InteractionEnabled := true
      m_ZoomMode := 0
      m_BoundsEnabled := false
      mp_Bounds := { xMin := 0, xMax := 0, yMin := 0, yMax := 0 }
      m_ChartBoundsValid := true
      mp_Borders := { left := 0, bottom := 0, right := 0, top := 0 }
      mp_Plots := []
      mp_PlotsTransform := vtkTransform2D.Identity
      m_PlotsTransformValid := true
      m_BordersChanged := false }
  s.SetBorders 60 50 20 20

/-- Modelled from the spec: the inline setter `SetZoomMode(int mode)` of
`btkVTKChartTimeSeries.h` (header not available), which sets the zoom mode. -/
def SetZoomMode (s : VTKChartTimeSeries) (mode : Int) : VTKChartTimeSeries :=
  { s with m_ZoomMode := mode }

/-- One step of a user session on the chart: a pointer move, a wheel step, or
the choice of a zoom mode between two events. -/
inductive Interaction where
  | PointerMove (mouse : vtkContextMouseEvent)
  | Wheel (delta : Int)
  | ZoomMode (mode : Int)
deriving DecidableEq

/-- State of the chart after one interaction. -/
def interact (s : VTKChartTimeSeries) (e : Interaction) : VTKChartTimeSeries :=
  match e with
  | Interaction.PointerMove mouse => (s.MouseMoveEvent mouse).2
  | Interaction.Wheel delta => (s.MouseWheelEvent delta).2
  | Interaction.ZoomMode mode => s.SetZoomMode mode

/-- State of the chart after a sequence of interactions, handled in order. -/
def interactions (s : VTKChartTimeSeries) (events : List Interaction) : VTKChartTimeSeries :=
  events.foldl interact s

/-- Both axes are anchored at the corners of the plotting rectangle, the way
the layout block of `Paint` places them: the horizontal axis runs along the
bottom edge from `Point1`, the vertical axis along the left edge from `Point1`. -/
def AxesAnchored (s : VTKChartTimeSeries) : Prop :=
  s.mp_AxisX.Point1 = ((s.Point1.1 : ℚ), (s.Point1.2 : ℚ)) ∧
  s.mp_AxisX.Point2 = ((s.Point2.1 : ℚ), (s.Point1.2 : ℚ)) ∧
  s.mp_AxisY.Point1 = ((s.Point1.1 : ℚ), (s.Point1.2 : ℚ)) ∧
  s.mp_AxisY.Point2 = ((s.Point1.1 : ℚ), (s.Point2.2 : ℚ))

instance AxesAnchored.decidable (s : VTKChartTimeSeries) : Decidable (AxesAnchored s) := by
  unfold AxesAnchored
  infer_instance

/-! ## Example states -/

/-- An axis displaying `[lo, hi]`, drawn from the screen origin to `(400, 300)`
along both dimensions. -/
def exampleAxis (lo hi : ℚ) : vtkAxis :=
  { Minimum := lo, Maximum := hi, Point1 := (0, 0), Point2 := (400, 300) }

/-- A chart without plots, both axes displaying `[0, 100]`, interaction
enabled, bounds disabled, zoom mode `BOTH`, borders `(60, 50, 20, 20)` in a
scene of 480 by 370 pixels, no legend, no colour series and no title. -/
def exampleChart : VTKChartTimeSeries :=
  { mp_AxisX := exampleAxis 0 100
    mp_AxisY := exampleAxis 0 100
    mp_Plots := []
    mp_Bounds := { xMin := 0, xMax := 0, yMin := 0, yMax := 0 }
    m_InteractionEnabled := true
    m_ZoomMode := BOTH
    m_BoundsEnabled := false
    m_ChartBoundsValid := true
    m_PlotsTransformValid := true
    SceneDirty := false
    mp_Legend := none
    mp_Colors := none
    mp_Borders := { left := 60, bottom := 50, right := 20, top := 20 }
    m_BordersChanged := false
    mp_PlotsTransform := vtkTransform2D.Identity
    Point1 := (60, 50)
    Point2 := (460, 350)
    Geometry := (480, 370)
    ShowLegend := false
    Title := none }

/-- A chart with bounds `(0, 10, 0, 10)` enabled, whose horizontal axis displays
`[1, 5]` and whose vertical axis displays `[2, 6]`. -/
def panChart : VTKChartTimeSeries :=
  { exampleChart with
    mp_AxisX := exampleAxis 1 5
    mp_AxisY := exampleAxis 2 6
    mp_Bounds := { xMin := 0, xMax := 10, yMin := 0, yMax := 10 }
    m_BoundsEnabled := true }

/-- A pointer move of 300 pixels to the right: on `panChart` its horizontal
data-space delta is `-3` and its vertical one is `0`. -/
def panMouse : vtkContextMouseEvent :=
  { ScreenPos := (300, 0), LastScreenPos := (0, 0) }

/-- A chart with bounds `(0, 10, 0, 10)` enabled and both axes displaying the
whole of `[0, 10]`, zoom mode `BOTH`. -/
def zoomChart : VTKChartTimeSeries :=
  { exampleChart with
    mp_AxisX := exampleAxis 0 10
    mp_AxisY := exampleAxis 0 10
    mp_Bounds := { xMin := 0, xMax := 10, yMin := 0, yMax := 10 }
    m_BoundsEnabled := true }

/-- A visible plot reporting the bounds `(2, 10, -1, 3)`. -/
def examplePlot : vtkPlot :=
  { Visible := true, Bounds := { xMin := 2, xMax := 10, yMin := -1, yMax := 3 }, PenColor := (0, 0, 0) }

/-- A visible plot lying in the negative quadrant: bounds `(-10, -2, -5, -1)`. -/
def negativePlot : vtkPlot :=
  { Visible := true, Bounds := { xMin := -10, xMax := -2, yMin := -5, yMax := -1 }, PenColor := (0, 0, 0) }

/-- An invisible plot reporting the bounds `(-5, 100, -10, 30)`. -/
def hiddenPlot : vtkPlot :=
  { Visible := false, Bounds := { xMin := -5, xMax := 100, yMin := -10, yMax := 30 }, PenColor := (0, 0, 0) }

/-- A chart holding `examplePlot` whose stored bounds `(2, 10, -6/5, 16/5)` are
those of the plot, whose horizontal axis was panned to `[4, 12]` and whose
chart-bounds-valid flag was cleared (as after an `AddPlot` followed by a
`RemovePlot` of the added plot). -/
def pannedChart : VTKChartTimeSeries :=
  { exampleChart with
    mp_Plots := [examplePlot]
    mp_Bounds := { xMin := 2, xMax := 10, yMin := -6 / 5, yMax := 16 / 5 }
    mp_AxisX := exampleAxis 4 12
    mp_AxisY := exampleAxis (-6 / 5) (16 / 5)
    m_ChartBoundsValid := false }

/-- A chart whose horizontal axis displays the degenerate range `[3, 3]` and
whose plots-transform-valid flag is cleared. -/
def degenerateChart : VTKChartTimeSeries :=
  { exampleChart with
    mp_AxisX := exampleAxis 3 3
    m_PlotsTransformValid := false }

/-- A pointer move of 100 pixels to the left and 30 pixels upwards. -/
def dragMouse : vtkContextMouseEvent :=
  { ScreenPos := (100, 130), LastScreenPos := (200, 100) }

/-- A chart that was not laid out yet: the horizontal axis displays the
degenerate range `[3, 3]` and its two screen endpoints coincide at `(0, 10)`;
bounds are disabled. -/
def zeroSpanChart : VTKChartTimeSeries :=
  { exampleChart with
    mp_AxisX := { Minimum := 3, Maximum := 3, Point1 := (0, 10), Point2 := (0, 10) } }

/-! ## Shape of the state after the two interaction handlers -/

theorem range_two : List.range 2 = [0, 1] := rfl

/-- After a pointer move with interaction enabled, the horizontal axis is the
result of the loop iteration `i = 0` on the previous horizontal axis. -/
theorem MouseMoveEvent_AxisX (s : VTKChartTimeSeries) (mouse : vtkContextMouseEvent)
    (hI : s.m_InteractionEnabled = true) :
    (s.MouseMoveEvent mouse).2.mp_AxisX
      = MouseMoveEvent.pan s.m_BoundsEnabled s.mp_Bounds mouse 0 s.mp_AxisX := by
  simp [MouseMoveEvent, hI, range_two, MouseMoveEvent.body, GetAxis, putAxis]

/-- After a pointer move with interaction enabled, the vertical axis is the
result of the loop iteration `i = 1` on the previous vertical axis. -/
theorem MouseMoveEvent_AxisY (s : VTKChartTimeSeries) (mouse : vtkContextMouseEvent)
    (hI : s.m_InteractionEnabled = true) :
    (s.MouseMoveEvent mouse).2.mp_AxisY
      = MouseMoveEvent.pan s.m_BoundsEnabled s.mp_Bounds mouse 1 s.mp_AxisY := by
  simp [MouseMoveEvent, hI, range_two, MouseMoveEvent.body, GetAxis, putAxis]

/-- After a wheel event with interaction enabled, the horizontal axis is zoomed
exactly when the zoom mode equals the loop index `0` or `BOTH`. -/
theorem MouseWheelEvent_AxisX (s : VTKChartTimeSeries) (delta : Int)
    (hI : s.m_InteractionEnabled = true) :
    (s.MouseWheelEvent delta).2.mp_AxisX
      = if s.m_ZoomMode = 0 ∨ s.m_ZoomMode = BOTH then
          MouseWheelEvent.zoom s.m_BoundsEnabled s.mp_Bounds delta 0 s.mp_AxisX
        else s.mp_AxisX := by
  by_cases h0 : s.m_ZoomMode = 0 <;> by_cases h1 : s.m_ZoomMode = 1 <;>
    simp [MouseWheelEvent, hI, range_two, MouseWheelEvent.body, GetAxis, putAxis, BOTH, h0, h1]

/-- After a wheel event with interaction enabled, the vertical axis is zoomed
exactly when the zoom mode equals the loop index `1` or `BOTH`. -/
theorem MouseWheelEvent_AxisY (s : VTKChartTimeSeries) (delta : Int)
    (hI : s.m_InteractionEnabled = true) :
    (s.MouseWheelEvent delta).2.mp_AxisY
      = if s.m_ZoomMode = 1 ∨ s.m_ZoomMode = BOTH then
          MouseWheelEvent.zoom s.m_BoundsEnabled s.mp_Bounds delta 1 s.mp_AxisY
        else s.mp_AxisY := by
  by_cases h0 : s.m_ZoomMode = 0 <;> by_cases h1 : s.m_ZoomMode = 1 <;>
    simp [MouseWheelEvent, hI, range_two, MouseWheelEvent.body, GetAxis, putAxis, BOTH, h0, h1]

/-! ## Bounds application and recalculation -/

theorem DBL_MIN_pos : 0 < DBL_MIN := by
  unfold DBL_MIN; positivity

theorem DBL_MIN_lt_one : DBL_MIN < 1 := by
  unfold DBL_MIN
  rw [div_lt_one (by positivity)]
  exact one_lt_pow₀ (by norm_num) (by norm_num)

theorem two_pow_le_DBL_MAX : 2 ^ 1023 ≤ DBL_MAX := by
  unfold DBL_MAX
  have h1 : (2 : ℚ) ^ 1024 = 2 * 2 ^ 1023 := by rw [pow_succ]; ring
  have h2 : (2 : ℚ) ^ 971 ≤ 2 ^ 1023 := pow_le_pow_right₀ (by norm_num) (by norm_num)
  linarith

/-- The guard of `SetBounds` holds exactly when the argument equals the stored bounds. -/
theorem SetBounds_guard_iff (s : VTKChartTimeSeries) (bounds : Bounds4) :
    (bounds.at 0 = s.mp_Bounds.at 0 ∧ bounds.at 1 = s.mp_Bounds.at 1
      ∧ bounds.at 2 = s.mp_Bounds.at 2 ∧ bounds.at 3 = s.mp_Bounds.at 3)
      ↔ bounds = s.mp_Bounds := by
  cases bounds
  cases h : s.mp_Bounds
  simp [Bounds4.at]

/-- A call of `SetBounds` with the stored bounds changes nothing. -/
theorem SetBounds_of_eq (s : VTKChartTimeSeries) (bounds : Bounds4) (h : bounds = s.mp_Bounds) :
    s.SetBounds bounds = s := by
  simp [SetBounds, (SetBounds_guard_iff s bounds).2 h]

/-- A call of `SetBounds` with other bounds stores them, commits them to both
axes, sets chart-bounds-valid, clears plots-transform-valid and marks the scene dirty. -/
theorem SetBounds_of_ne (s : VTKChartTimeSeries) (bounds : Bounds4) (h : bounds ≠ s.mp_Bounds) :
    s.SetBounds bounds =
      { s with
        mp_Bounds := bounds
        mp_AxisX := s.mp_AxisX.SetRange bounds.xMin bounds.xMax
        mp_AxisY := s.mp_AxisY.SetRange bounds.yMin bounds.yMax
        m_ChartBoundsValid := true
        m_PlotsTransformValid := false
        SceneDirty := true } := by
  have hg := (SetBounds_guard_iff s bounds).not.2 h
  simp only [SetBounds, hg, if_false]
  cases bounds
  simp [Bounds4.at]

/-- After `SetBounds` the stored bounds are the argument, guard or not. -/
theorem SetBounds_mp_Bounds (s : VTKChartTimeSeries) (bounds : Bounds4) :
    (s.SetBounds bounds).mp_Bounds = bounds := by
  by_cases h : bounds = s.mp_Bounds
  · rw [SetBounds_of_eq s bounds h, h]
  · rw [SetBounds_of_ne s bounds h]

/-- The bounds that `RecalculateBounds` passes to `SetBounds`. -/
theorem RecalculateBounds_eq_SetBounds (s : VTKChartTimeSeries) :
    ∃ bounds : Bounds4, s.RecalculateBounds = s.SetBounds bounds :=
  ⟨_, rfl⟩

/-- The loop of `RecalculateBounds` folds the reported bounds of the visible
plots into the running minima and maxima, starting from the initial locals;
invisible plots contribute nothing, and `validBounds` tells whether some plot
is visible. -/
theorem RecalculateBounds_loop (plots : List vtkPlot) (v : RecalcLocals) :
    plots.foldl RecalculateBounds.body v =
      { x0 := ((plots.filter (fun p => p.Visible)).map (fun p => p.Bounds.xMin)).foldl min v.x0
        x1 := ((plots.filter (fun p => p.Visible)).map (fun p => p.Bounds.xMax)).foldl max v.x1
        y0 := ((plots.filter (fun p => p.Visible)).map (fun p => p.Bounds.yMin)).foldl min v.y0
        y1 := ((plots.filter (fun p => p.Visible)).map (fun p => p.Bounds.yMax)).foldl max v.y1
        validBounds := v.validBounds || plots.any (fun p => p.Visible) } := by
  induction plots generalizing v with
  | nil => simp
  | cons p ps ih =>
    rw [List.foldl_cons, ih]
    by_cases hp : p.Visible = true
    · simp [RecalculateBounds.body, hp, Bounds4.at]
    · simp [RecalculateBounds.body, hp]

/-- With at least one visible plot, the bounds stored by `RecalculateBounds`
are built from the minima over the visible plots together with the sentinel
`DBL_MAX`, and the maxima over the visible plots together with the sentinel
`DBL_MIN`; the vertical pair is widened by a twentieth of its span. -/
theorem RecalculateBounds_GetBounds_of_visible (s : VTKChartTimeSeries)
    (hv : s.mp_Plots.any (fun p => p.Visible) = true) :
    (s.RecalculateBounds).GetBounds.xMin
      = ((s.mp_Plots.filter (fun p => p.Visible)).map (fun p => p.Bounds.xMin)).foldl min DBL_MAX ∧
    (s.RecalculateBounds).GetBounds.xMax
      = ((s.mp_Plots.filter (fun p => p.Visible)).map (fun p => p.Bounds.xMax)).foldl max DBL_MIN ∧
    (s.RecalculateBounds).GetBounds.yMin
      = ((s.mp_Plots.filter (fun p => p.Visible)).map (fun p => p.Bounds.yMin)).foldl min DBL_MAX
        - (((s.mp_Plots.filter (fun p => p.Visible)).map (fun p => p.Bounds.yMax)).foldl max DBL_MIN
          - ((s.mp_Plots.filter (fun p => p.Visible)).map (fun p => p.Bounds.yMin)).foldl min DBL_MAX)
          / 20 ∧
    (s.RecalculateBounds).GetBounds.yMax
      = ((s.mp_Plots.filter (fun p => p.Visible)).map (fun p => p.Bounds.yMax)).foldl max DBL_MIN
        + (((s.mp_Plots.filter (fun p => p.Visible)).map (fun p => p.Bounds.yMax)).foldl max DBL_MIN
          - ((s.mp_Plots.filter (fun p => p.Visible)).map (fun p => p.Bounds.yMin)).foldl min DBL_MAX)
          / 20 := by
  simp only [GetBounds, RecalculateBounds, Update, SetBounds4, SetBounds_mp_Bounds,
    RecalculateBounds_loop, RecalculateBounds.init, hv, Bool.or_true, Bool.not_true]
  simp

/-- Without any visible plot, `RecalculateBounds` stores `(0, 0, 0, 0)`. -/
theorem RecalculateBounds_GetBounds_of_no_visible (s : VTKChartTimeSeries)
    (hv : s.mp_Plots.any (fun p => p.Visible) = false) :
    (s.RecalculateBounds).GetBounds = { xMin := 0, xMax := 0, yMin := 0, yMax := 0 } := by
  simp only [GetBounds, RecalculateBounds, Update, SetBounds4, SetBounds_mp_Bounds,
    RecalculateBounds_loop, RecalculateBounds.init, hv, Bool.or_false, Bool.not_false]
  simp

/-- On a chart holding the visible plot `(2, 10, -1, 3)` and an invisible plot,
`RecalculateBounds` stores `(2, 10, -6/5, 16/5)`: the invisible plot is ignored,
the horizontal bounds are exact and the vertical ones are padded by `4/20`. -/
theorem RecalculateBounds_examplePlot :
    (({ exampleChart with mp_Plots := [examplePlot, hiddenPlot] }).RecalculateBounds).GetBounds
      = { xMin := 2, xMax := 10, yMin := -6 / 5, yMax := 16 / 5 } := by
  have h1 : min DBL_MAX 2 = 2 := min_eq_right (by linarith [two_pow_le_DBL_MAX, (by norm_num : (2:ℚ) ≤ 2 ^ 1023)])
  have h2 : max DBL_MIN 10 = 10 := max_eq_right (by linarith [DBL_MIN_lt_one])
  have h3 : min DBL_MAX (-1) = -1 := min_eq_right (by linarith [two_pow_le_DBL_MAX, (by norm_num : (2:ℚ) ≤ 2 ^ 1023)])
  have h4 : max DBL_MIN 3 = 3 := max_eq_right (by linarith [DBL_MIN_lt_one])
  simp only [GetBounds, RecalculateBounds, Update, SetBounds4, SetBounds_mp_Bounds]
  simp [RecalculateBounds.body, RecalculateBounds.init, examplePlot, hiddenPlot, Bounds4.at,
    h1, h2, h3, h4]
  norm_num

/-- C1 (the code departs from it): on a chart whose only plot is visible and
reports `(-10, -2, -5, -1)`, `RecalculateBounds` stores `xMax = DBL_MIN`, a
positive number, instead of `-2`; the vertical accumulator likewise ends at
`DBL_MIN` instead of `-1`, so the stored `yMin` and `yMax` are not
`-5 - 4/20` and `-1 + 4/20`.  Only `xMin = -10` is as claimed. -/
theorem RecalculateBounds_negative_maximum :
    (({ exampleChart with mp_Plots := [negativePlot] }).RecalculateBounds).GetBounds.xMin = -10 ∧
    (({ exampleChart with mp_Plots := [negativePlot] }).RecalculateBounds).GetBounds.xMax
      = DBL_MIN ∧
    (({ exampleChart with mp_Plots := [negativePlot] }).RecalculateBounds).GetBounds.xMax ≠ -2 ∧
    (({ exampleChart with mp_Plots := [negativePlot] }).RecalculateBounds).GetBounds.yMin
      = -5 - (DBL_MIN - -5) / 20 ∧
    (({ exampleChart with mp_Plots := [negativePlot] }).RecalculateBounds).GetBounds.yMin
      ≠ -5 - (-1 - -5) / 20 ∧
    (({ exampleChart with mp_Plots := [negativePlot] }).RecalculateBounds).GetBounds.yMax
      = DBL_MIN + (DBL_MIN - -5) / 20 ∧
    (({ exampleChart with mp_Plots := [negativePlot] }).RecalculateBounds).GetBounds.yMax
      ≠ -1 + (-1 - -5) / 20 := by
  have h1 : min DBL_MAX (-10) = -10 := min_eq_right (by linarith [two_pow_le_DBL_MAX, (by norm_num : (2:ℚ) ≤ 2 ^ 1023)])
  have h2 : max DBL_MIN (-2) = DBL_MIN := max_eq_left (by linarith [DBL_MIN_pos])
  have h3 : min DBL_MAX (-5) = -5 := min_eq_right (by linarith [two_pow_le_DBL_MAX, (by norm_num : (2:ℚ) ≤ 2 ^ 1023)])
  have h4 : max DBL_MIN (-1) = DBL_MIN := max_eq_left (by linarith [DBL_MIN_pos])
  have hb : (({ exampleChart with mp_Plots := [negativePlot] }).RecalculateBounds).GetBounds
      = { xMin := -10, xMax := DBL_MIN, yMin := -5 - (DBL_MIN - -5) / 20,
          yMax := DBL_MIN + (DBL_MIN - -5) / 20 } := by
    simp only [GetBounds, RecalculateBounds, Update, SetBounds4, SetBounds_mp_Bounds]
    simp [RecalculateBounds.body, RecalculateBounds.init, negativePlot, Bounds4.at,
      h1, h2, h3, h4]
  rw [hb]
  have hp := DBL_MIN_pos
  refine ⟨rfl, rfl, ?_, rfl, ?_, rfl, ?_⟩
  · show DBL_MIN ≠ -2
    linarith
  · show -5 - (DBL_MIN - -5) / 20 ≠ -5 - (-1 - -5) / 20
    intro h; linarith
  · show DBL_MIN + (DBL_MIN - -5) / 20 ≠ -1 + (-1 - -5) / 20
    intro h; linarith

/-- C3 (the code departs from it): on axes both displaying `[0, 100]`, with
interaction enabled, bounds disabled and wheel delta `1`, zoom mode `HORIZONTAL`
(value 1) leaves the horizontal range at `[0, 100]` and contracts the vertical
range to `[5, 95]`, and zoom mode `VERTICAL` (value 2) changes neither range. -/
theorem MouseWheelEvent_mode_selects_other_axis :
    HORIZONTAL = 1 ∧ VERTICAL = 2 ∧
    (({ exampleChart with m_ZoomMode := HORIZONTAL }).MouseWheelEvent 1).2.mp_AxisX
      = exampleAxis 0 100 ∧
    (({ exampleChart with m_ZoomMode := HORIZONTAL }).MouseWheelEvent 1).2.mp_AxisY
      = exampleAxis 5 95 ∧
    (({ exampleChart with m_ZoomMode := VERTICAL }).MouseWheelEvent 1).2.mp_AxisX
      = exampleAxis 0 100 ∧
    (({ exampleChart with m_ZoomMode := VERTICAL }).MouseWheelEvent 1).2.mp_AxisY
      = exampleAxis 0 100 := by
  refine ⟨rfl, rfl, ?_, ?_, ?_, ?_⟩
  · rw [MouseWheelEvent_AxisX _ _ rfl]
    simp [exampleChart, HORIZONTAL, BOTH]
  · rw [MouseWheelEvent_AxisY _ _ rfl]
    simp [exampleChart, HORIZONTAL, BOTH, MouseWheelEvent.zoom, vtkAxis.SetRange, exampleAxis]
    norm_num
  · rw [MouseWheelEvent_AxisX _ _ rfl]
    simp [exampleChart, VERTICAL, BOTH]
  · rw [MouseWheelEvent_AxisY _ _ rfl]
    simp [exampleChart, VERTICAL, BOTH]

/-- With interaction enabled, zoom mode `HORIZONTAL` leaves the horizontal axis
as it was and zooms the vertical axis; zoom mode `VERTICAL` leaves both axes as
they were; zoom mode `BOTH` zooms both. -/
theorem MouseWheelEvent_axes_by_mode (s : VTKChartTimeSeries) (delta : Int)
    (hI : s.m_InteractionEnabled = true) :
    (s.m_ZoomMode = HORIZONTAL →
      (s.MouseWheelEvent delta).2.mp_AxisX = s.mp_AxisX ∧
      (s.MouseWheelEvent delta).2.mp_AxisY
        = MouseWheelEvent.zoom s.m_BoundsEnabled s.mp_Bounds delta 1 s.mp_AxisY) ∧
    (s.m_ZoomMode = VERTICAL →
      (s.MouseWheelEvent delta).2.mp_AxisX = s.mp_AxisX ∧
      (s.MouseWheelEvent delta).2.mp_AxisY = s.mp_AxisY) ∧
    (s.m_ZoomMode = BOTH →
      (s.MouseWheelEvent delta).2.mp_AxisX
        = MouseWheelEvent.zoom s.m_BoundsEnabled s.mp_Bounds delta 0 s.mp_AxisX ∧
      (s.MouseWheelEvent delta).2.mp_AxisY
        = MouseWheelEvent.zoom s.m_BoundsEnabled s.mp_Bounds delta 1 s.mp_AxisY) := by
  rw [MouseWheelEvent_AxisX s delta hI, MouseWheelEvent_AxisY s delta hI]
  refine ⟨?_, ?_, ?_⟩ <;> intro h <;> simp [h, HORIZONTAL, VERTICAL, BOTH]

/-- C8: with interaction enabled, bounds disabled and zoom mode `BOTH`, a wheel
event with delta `d` commits `[min + d*0.05*(max - min), max - d*0.05*(max - min)]`
to the horizontal and to the vertical axis, and clears plots-transform-valid. -/
theorem MouseWheelEvent_both_unbounded (s : VTKChartTimeSeries) (d : Int)
    (hI : s.m_InteractionEnabled = true) (hB : s.m_BoundsEnabled = false)
    (hZ : s.m_ZoomMode = BOTH) :
    (s.MouseWheelEvent d).2.mp_AxisX.Minimum
      = s.mp_AxisX.Minimum + (d : ℚ) * (5 / 100) * (s.mp_AxisX.Maximum - s.mp_AxisX.Minimum) ∧
    (s.MouseWheelEvent d).2.mp_AxisX.Maximum
      = s.mp_AxisX.Maximum - (d : ℚ) * (5 / 100) * (s.mp_AxisX.Maximum - s.mp_AxisX.Minimum) ∧
    (s.MouseWheelEvent d).2.mp_AxisY.Minimum
      = s.mp_AxisY.Minimum + (d : ℚ) * (5 / 100) * (s.mp_AxisY.Maximum - s.mp_AxisY.Minimum) ∧
    (s.MouseWheelEvent d).2.mp_AxisY.Maximum
      = s.mp_AxisY.Maximum - (d : ℚ) * (5 / 100) * (s.mp_AxisY.Maximum - s.mp_AxisY.Minimum) ∧
    (s.MouseWheelEvent d).2.m_PlotsTransformValid = false := by
  rw [MouseWheelEvent_AxisX s d hI, MouseWheelEvent_AxisY s d hI]
  refine ⟨?_, ?_, ?_, ?_, ?_⟩
  · simp [hZ, hB, MouseWheelEvent.zoom, vtkAxis.SetRange]; ring
  · simp [hZ, hB, MouseWheelEvent.zoom, vtkAxis.SetRange]; ring
  · simp [hZ, hB, MouseWheelEvent.zoom, vtkAxis.SetRange]; ring
  · simp [hZ, hB, MouseWheelEvent.zoom, vtkAxis.SetRange]; ring
  · simp [MouseWheelEvent, hI]

/-- C8, witness: the ranges `[0, 100]` with delta `1` become `[5, 95]`. -/
theorem MouseWheelEvent_both_unbounded_witness :
    exampleChart.m_InteractionEnabled = true ∧ exampleChart.m_BoundsEnabled = false ∧
    exampleChart.m_ZoomMode = BOTH ∧
    (exampleChart.MouseWheelEvent 1).2.mp_AxisX.Minimum = 5 ∧
    (exampleChart.MouseWheelEvent 1).2.mp_AxisX.Maximum = 95 ∧
    (exampleChart.MouseWheelEvent 1).2.mp_AxisY.Minimum = 5 ∧
    (exampleChart.MouseWheelEvent 1).2.mp_AxisY.Maximum = 95 ∧
    (exampleChart.MouseWheelEvent 1).2.m_PlotsTransformValid = false := by
  have h := MouseWheelEvent_both_unbounded exampleChart 1 rfl rfl rfl
  obtain ⟨h1, h2, h3, h4, h5⟩ := h
  refine ⟨rfl, rfl, rfl, ?_, ?_, ?_, ?_, h5⟩
  · rw [h1]; norm_num [exampleChart, exampleAxis]
  · rw [h2]; norm_num [exampleChart, exampleAxis]
  · rw [h3]; norm_num [exampleChart, exampleAxis]
  · rw [h4]; norm_num [exampleChart, exampleAxis]

/-! ## Pan under enabled bounds -/

/-- C4: with interaction and bounds enabled, a pointer move whose data-space
deltas are `dx` and `dy` commits on each axis `[lower, max]` when `min + d` is
below the lower bound, otherwise `[min, upper]` when `max + d` is above the
upper bound, otherwise `[min + d, max + d]`. -/
theorem MouseMoveEvent_bounded_range (s : VTKChartTimeSeries) (mouse : vtkContextMouseEvent)
    (dx dy : ℚ)
    (hI : s.m_InteractionEnabled = true) (hB : s.m_BoundsEnabled = true)
    (hdx : dx = (mouse.LastScreenPos.1 - mouse.ScreenPos.1)
      * ((s.mp_AxisX.Maximum - s.mp_AxisX.Minimum) / (s.mp_AxisX.Point2.1 - s.mp_AxisX.Point1.1)))
    (hdy : dy = (mouse.LastScreenPos.2 - mouse.ScreenPos.2)
      * ((s.mp_AxisY.Maximum - s.mp_AxisY.Minimum) / (s.mp_AxisY.Point2.2 - s.mp_AxisY.Point1.2))) :
    ((s.MouseMoveEvent mouse).2.mp_AxisX.Minimum, (s.MouseMoveEvent mouse).2.mp_AxisX.Maximum)
      = (if s.mp_AxisX.Minimum + dx < s.mp_Bounds.xMin then
          (s.mp_Bounds.xMin, s.mp_AxisX.Maximum)
        else if s.mp_AxisX.Maximum + dx > s.mp_Bounds.xMax then
          (s.mp_AxisX.Minimum, s.mp_Bounds.xMax)
        else (s.mp_AxisX.Minimum + dx, s.mp_AxisX.Maximum + dx)) ∧
    ((s.MouseMoveEvent mouse).2.mp_AxisY.Minimum, (s.MouseMoveEvent mouse).2.mp_AxisY.Maximum)
      = (if s.mp_AxisY.Minimum + dy < s.mp_Bounds.yMin then
          (s.mp_Bounds.yMin, s.mp_AxisY.Maximum)
        else if s.mp_AxisY.Maximum + dy > s.mp_Bounds.yMax then
          (s.mp_AxisY.Minimum, s.mp_Bounds.yMax)
        else (s.mp_AxisY.Minimum + dy, s.mp_AxisY.Maximum + dy)) := by
  rw [MouseMoveEvent_AxisX s mouse hI, MouseMoveEvent_AxisY s mouse hI]
  subst hdx hdy
  constructor
  · simp only [MouseMoveEvent.pan, at2, Bounds4.at, hB, true_and, if_true, Nat.zero_mul,
      Nat.zero_add]
    split_ifs <;> simp [vtkAxis.SetRange]
  · simp only [MouseMoveEvent.pan, at2, Bounds4.at, hB, true_and, one_ne_zero, if_false,
      Nat.one_mul]
    split_ifs <;> simp [vtkAxis.SetRange]

/-- C4, witness: with bounds `(0, 10, 0, 10)` and the horizontal range `[1, 5]`,
a pan whose candidate horizontal minimum is `-2` commits `[0, 5]`. -/
theorem MouseMoveEvent_bounded_range_witness :
    panChart.m_InteractionEnabled = true ∧ panChart.m_BoundsEnabled = true ∧
    panChart.mp_AxisX.Minimum + (-3) = -2 ∧
    ((panChart.MouseMoveEvent panMouse).2.mp_AxisX.Minimum,
      (panChart.MouseMoveEvent panMouse).2.mp_AxisX.Maximum) = (0, 5) ∧
    ((panChart.MouseMoveEvent panMouse).2.mp_AxisY.Minimum,
      (panChart.MouseMoveEvent panMouse).2.mp_AxisY.Maximum) = (2, 6) := by
  have h := MouseMoveEvent_bounded_range panChart panMouse (-3) 0 rfl rfl
    (by norm_num [panChart, panMouse, exampleAxis])
    (by norm_num [panChart, panMouse, exampleAxis])
  refine ⟨rfl, rfl, by norm_num [panChart, exampleAxis], ?_, ?_⟩
  · rw [h.1]; norm_num [panChart, exampleAxis]
  · rw [h.2]; norm_num [panChart, exampleAxis]

/-- C5 (as stated, refuted): on `panChart` the candidate horizontal minimum
`1 + (-3)` is below the lower bound `0`, and the committed horizontal range has
width `5` whereas the range before the pan had width `4`. -/
theorem MouseMoveEvent_crossing_width_not_preserved :
    panChart.m_InteractionEnabled = true ∧ panChart.m_BoundsEnabled = true ∧
    panChart.mp_AxisX.Minimum
      + (panMouse.LastScreenPos.1 - panMouse.ScreenPos.1)
        * ((panChart.mp_AxisX.Maximum - panChart.mp_AxisX.Minimum)
          / (panChart.mp_AxisX.Point2.1 - panChart.mp_AxisX.Point1.1))
      < panChart.mp_Bounds.xMin ∧
    (panChart.MouseMoveEvent panMouse).2.mp_AxisX.Maximum
        - (panChart.MouseMoveEvent panMouse).2.mp_AxisX.Minimum
      ≠ panChart.mp_AxisX.Maximum - panChart.mp_AxisX.Minimum := by
  refine ⟨rfl, rfl, by norm_num [panChart, panMouse, exampleAxis], ?_⟩
  rw [MouseMoveEvent_AxisX _ _ rfl]
  simp only [MouseMoveEvent.pan, at2, Bounds4.at, panChart, panMouse, exampleAxis, exampleChart,
    vtkAxis.SetRange]
  norm_num

/-- C5 (amended): with interaction and bounds enabled, a pan whose candidate
minimum falls below the lower bound commits `[lower, max]`, a range of width
`max - lower`, that is the previous width plus `min - lower`; a pan whose
candidate maximum (only) exceeds the upper bound commits `[min, upper]`, a
range of width `upper - min`, that is the previous width plus `upper - max`.
The width is thus the previous one when the range already touches the bound
that is crossed. -/
theorem MouseMoveEvent_crossing_width (s : VTKChartTimeSeries) (mouse : vtkContextMouseEvent)
    (dx dy : ℚ)
    (hI : s.m_InteractionEnabled = true) (hB : s.m_BoundsEnabled = true)
    (hdx : dx = (mouse.LastScreenPos.1 - mouse.ScreenPos.1)
      * ((s.mp_AxisX.Maximum - s.mp_AxisX.Minimum) / (s.mp_AxisX.Point2.1 - s.mp_AxisX.Point1.1)))
    (hdy : dy = (mouse.LastScreenPos.2 - mouse.ScreenPos.2)
      * ((s.mp_AxisY.Maximum - s.mp_AxisY.Minimum) / (s.mp_AxisY.Point2.2 - s.mp_AxisY.Point1.2))) :
    (s.mp_AxisX.Minimum + dx < s.mp_Bounds.xMin →
      (s.MouseMoveEvent mouse).2.mp_AxisX.Minimum = s.mp_Bounds.xMin ∧
      (s.MouseMoveEvent mouse).2.mp_AxisX.Maximum = s.mp_AxisX.Maximum ∧
      (s.MouseMoveEvent mouse).2.mp_AxisX.Maximum - (s.MouseMoveEvent mouse).2.mp_AxisX.Minimum
        = (s.mp_AxisX.Maximum - s.mp_AxisX.Minimum) + (s.mp_AxisX.Minimum - s.mp_Bounds.xMin)) ∧
    (¬ s.mp_AxisX.Minimum + dx < s.mp_Bounds.xMin → s.mp_AxisX.Maximum + dx > s.mp_Bounds.xMax →
      (s.MouseMoveEvent mouse).2.mp_AxisX.Minimum = s.mp_AxisX.Minimum ∧
      (s.MouseMoveEvent mouse).2.mp_AxisX.Maximum = s.mp_Bounds.xMax ∧
      (s.MouseMoveEvent mouse).2.mp_AxisX.Maximum - (s.MouseMoveEvent mouse).2.mp_AxisX.Minimum
        = (s.mp_AxisX.Maximum - s.mp_AxisX.Minimum) + (s.mp_Bounds.xMax - s.mp_AxisX.Maximum)) ∧
    (s.mp_AxisY.Minimum + dy < s.mp_Bounds.yMin →
      (s.MouseMoveEvent mouse).2.mp_AxisY.Minimum = s.mp_Bounds.yMin ∧
      (s.MouseMoveEvent mouse).2.mp_AxisY.Maximum = s.mp_AxisY.Maximum ∧
      (s.MouseMoveEvent mouse).2.mp_AxisY.Maximum - (s.MouseMoveEvent mouse).2.mp_AxisY.Minimum
        = (s.mp_AxisY.Maximum - s.mp_AxisY.Minimum) + (s.mp_AxisY.Minimum - s.mp_Bounds.yMin)) ∧
    (¬ s.mp_AxisY.Minimum + dy < s.mp_Bounds.yMin → s.mp_AxisY.Maximum + dy > s.mp_Bounds.yMax →
      (s.MouseMoveEvent mouse).2.mp_AxisY.Minimum = s.mp_AxisY.Minimum ∧
      (s.MouseMoveEvent mouse).2.mp_AxisY.Maximum = s.mp_Bounds.yMax ∧
      (s.MouseMoveEvent mouse).2.mp_AxisY.Maximum - (s.MouseMoveEvent mouse).2.mp_AxisY.Minimum
        = (s.mp_AxisY.Maximum - s.mp_AxisY.Minimum) + (s.mp_Bounds.yMax - s.mp_AxisY.Maximum)) := by
  rw [MouseMoveEvent_AxisX s mouse hI, MouseMoveEvent_AxisY s mouse hI]
  subst hdx hdy
  refine ⟨?_, ?_, ?_, ?_⟩
  · intro h
    simp only [MouseMoveEvent.pan, at2, Bounds4.at, hB, true_and, if_true, Nat.zero_mul,
      Nat.zero_add, h, vtkAxis.SetRange]
    ring
  · intro h h2
    simp only [MouseMoveEvent.pan, at2, Bounds4.at, hB, true_and, if_true, Nat.zero_mul,
      Nat.zero_add, h, h2, if_false, vtkAxis.SetRange]
    ring
  · intro h
    simp only [MouseMoveEvent.pan, at2, Bounds4.at, hB, true_and, one_ne_zero, if_false,
      Nat.one_mul, h, if_true, vtkAxis.SetRange]
    ring
  · intro h h2
    simp only [MouseMoveEvent.pan, at2, Bounds4.at, hB, true_and, one_ne_zero, if_false,
      Nat.one_mul, h, h2, if_true, vtkAxis.SetRange]
    ring

/-- C5 (amended), witness: on `panChart` the horizontal pan crosses the lower
bound, the committed range is `[0, 5]` and its width is `4 + 1`. -/
theorem MouseMoveEvent_crossing_width_witness :
    panChart.m_InteractionEnabled = true ∧ panChart.m_BoundsEnabled = true ∧
    panChart.mp_AxisX.Minimum + (-3) < panChart.mp_Bounds.xMin ∧
    (panChart.MouseMoveEvent panMouse).2.mp_AxisX.Minimum = 0 ∧
    (panChart.MouseMoveEvent panMouse).2.mp_AxisX.Maximum = 5 ∧
    (panChart.MouseMoveEvent panMouse).2.mp_AxisX.Maximum
        - (panChart.MouseMoveEvent panMouse).2.mp_AxisX.Minimum = 4 + 1 := by
  have hlt : panChart.mp_AxisX.Minimum + (-3) < panChart.mp_Bounds.xMin := by
    norm_num [panChart, exampleAxis]
  obtain ⟨h1, h2, h3⟩ := (MouseMoveEvent_crossing_width panChart panMouse (-3) 0 rfl rfl
    (by norm_num [panChart, panMouse, exampleAxis])
    (by norm_num [panChart, panMouse, exampleAxis])).1 hlt
  refine ⟨rfl, rfl, hlt, ?_, ?_, ?_⟩
  · rw [h1]; rfl
  · rw [h2]; rfl
  · rw [h3]; norm_num [panChart, exampleAxis]

/-- C6: with bounds enabled, if each axis range is ordered, lies within the
stored bounds of its dimension and the axis has a non-zero screen span, then
after any pointer move each axis range still has both endpoints within the
stored bounds of its dimension. -/
theorem MouseMoveEvent_keeps_within_bounds (s : VTKChartTimeSeries)
    (mouse : vtkContextMouseEvent)
    (hB : s.m_BoundsEnabled = true)
    (hXo : s.mp_AxisX.Minimum ≤ s.mp_AxisX.Maximum)
    (hXl : s.mp_Bounds.xMin ≤ s.mp_AxisX.Minimum) (hXu : s.mp_AxisX.Maximum ≤ s.mp_Bounds.xMax)
    (hYo : s.mp_AxisY.Minimum ≤ s.mp_AxisY.Maximum)
    (hYl : s.mp_Bounds.yMin ≤ s.mp_AxisY.Minimum) (hYu : s.mp_AxisY.Maximum ≤ s.mp_Bounds.yMax)
    (_hXs : s.mp_AxisX.Point2.1 - s.mp_AxisX.Point1.1 ≠ 0)
    (_hYs : s.mp_AxisY.Point2.2 - s.mp_AxisY.Point1.2 ≠ 0) :
    (s.mp_Bounds.xMin ≤ (s.MouseMoveEvent mouse).2.mp_AxisX.Minimum ∧
      (s.MouseMoveEvent mouse).2.mp_AxisX.Minimum ≤ s.mp_Bounds.xMax ∧
      s.mp_Bounds.xMin ≤ (s.MouseMoveEvent mouse).2.mp_AxisX.Maximum ∧
      (s.MouseMoveEvent mouse).2.mp_AxisX.Maximum ≤ s.mp_Bounds.xMax) ∧
    (s.mp_Bounds.yMin ≤ (s.MouseMoveEvent mouse).2.mp_AxisY.Minimum ∧
      (s.MouseMoveEvent mouse).2.mp_AxisY.Minimum ≤ s.mp_Bounds.yMax ∧
      s.mp_Bounds.yMin ≤ (s.MouseMoveEvent mouse).2.mp_AxisY.Maximum ∧
      (s.MouseMoveEvent mouse).2.mp_AxisY.Maximum ≤ s.mp_Bounds.yMax) ∧
    (s.MouseMoveEvent mouse).2.mp_Bounds = s.mp_Bounds := by
  by_cases hI : s.m_InteractionEnabled = true
  · rw [MouseMoveEvent_AxisX s mouse hI, MouseMoveEvent_AxisY s mouse hI]
    refine ⟨?_, ?_, ?_⟩
    · simp only [MouseMoveEvent.pan, at2, Bounds4.at, hB, true_and, if_true, Nat.zero_mul,
        Nat.zero_add]
      split_ifs with h1 h2 <;> simp only [vtkAxis.SetRange] <;>
        refine ⟨?_, ?_, ?_, ?_⟩ <;> linarith
    · simp only [MouseMoveEvent.pan, at2, Bounds4.at, hB, true_and, one_ne_zero, if_false,
        Nat.one_mul]
      split_ifs with h1 h2 <;> simp only [vtkAxis.SetRange] <;>
        refine ⟨?_, ?_, ?_, ?_⟩ <;> linarith
    · simp [MouseMoveEvent, hI, range_two, MouseMoveEvent.body, GetAxis, putAxis]
  · have hs : (s.MouseMoveEvent mouse).2 = s := by simp [MouseMoveEvent, hI]
    rw [hs]
    exact ⟨⟨hXl, by linarith, by linarith, hXu⟩, ⟨hYl, by linarith, by linarith, hYu⟩, rfl⟩

/-- C6, witness: `panChart` satisfies the hypotheses, and after `panMouse` its
horizontal range `[0, 5]` and vertical range `[2, 6]` lie within `[0, 10]`. -/
theorem MouseMoveEvent_keeps_within_bounds_witness :
    (panChart.mp_Bounds.xMin ≤ (panChart.MouseMoveEvent panMouse).2.mp_AxisX.Minimum ∧
      (panChart.MouseMoveEvent panMouse).2.mp_AxisX.Minimum ≤ panChart.mp_Bounds.xMax ∧
      panChart.mp_Bounds.xMin ≤ (panChart.MouseMoveEvent panMouse).2.mp_AxisX.Maximum ∧
      (panChart.MouseMoveEvent panMouse).2.mp_AxisX.Maximum ≤ panChart.mp_Bounds.xMax) ∧
    (panChart.mp_Bounds.yMin ≤ (panChart.MouseMoveEvent panMouse).2.mp_AxisY.Minimum ∧
      (panChart.MouseMoveEvent panMouse).2.mp_AxisY.Minimum ≤ panChart.mp_Bounds.yMax ∧
      panChart.mp_Bounds.yMin ≤ (panChart.MouseMoveEvent panMouse).2.mp_AxisY.Maximum ∧
      (panChart.MouseMoveEvent panMouse).2.mp_AxisY.Maximum ≤ panChart.mp_Bounds.yMax) ∧
    (panChart.MouseMoveEvent panMouse).2.mp_Bounds = panChart.mp_Bounds :=
  MouseMoveEvent_keeps_within_bounds panChart panMouse rfl
    (by norm_num [panChart, exampleAxis]) (by norm_num [panChart, exampleAxis])
    (by norm_num [panChart, exampleAxis]) (by norm_num [panChart, exampleAxis])
    (by norm_num [panChart, exampleAxis]) (by norm_num [panChart, exampleAxis])
    (by norm_num [panChart, exampleAxis]) (by norm_num [panChart, exampleAxis])

/-! ## Wheel zoom under enabled bounds -/

/-- C7 (the code departs from it): on `zoomChart`, whose ranges `[0, 10]` are
ordered and within the bounds `(0, 10, 0, 10)`, a wheel event with delta `21`
commits the horizontal range `[21/2, -1/2]`: the new minimum is above the upper
bound `10` and the new maximum is below the lower bound `0`. -/
theorem MouseWheelEvent_overshoots_bounds :
    zoomChart.m_BoundsEnabled = true ∧
    zoomChart.mp_AxisX.Minimum ≤ zoomChart.mp_AxisX.Maximum ∧
    zoomChart.mp_Bounds.xMin ≤ zoomChart.mp_AxisX.Minimum ∧
    zoomChart.mp_AxisX.Maximum ≤ zoomChart.mp_Bounds.xMax ∧
    (zoomChart.MouseWheelEvent 21).2.mp_AxisX.Minimum = 21 / 2 ∧
    (zoomChart.MouseWheelEvent 21).2.mp_AxisX.Maximum = -1 / 2 ∧
    zoomChart.mp_Bounds.xMax < (zoomChart.MouseWheelEvent 21).2.mp_AxisX.Minimum ∧
    (zoomChart.MouseWheelEvent 21).2.mp_AxisX.Maximum < zoomChart.mp_Bounds.xMin := by
  have hX : (zoomChart.MouseWheelEvent 21).2.mp_AxisX
      = (exampleAxis 0 10).SetRange (21 / 2) (-1 / 2) := by
    rw [MouseWheelEvent_AxisX _ _ rfl]
    simp only [zoomChart, exampleChart, BOTH, MouseWheelEvent.zoom, Bounds4.at, exampleAxis,
      vtkAxis.SetRange]
    norm_num
  rw [hX]
  norm_num [zoomChart, exampleAxis, vtkAxis.SetRange]

/-- With bounds enabled, an ordered range within the bounds and a wheel delta of
at most `20`, one zoom step keeps both endpoints within the bounds; this is the
part of the bounds invariant that the clamping of `MouseWheelEvent` achieves. -/
theorem MouseWheelEvent_zoom_within_bounds (b : Bounds4) (delta : Int) (i : Nat)
    (axis : vtkAxis) (hd : delta ≤ 20)
    (ho : axis.Minimum ≤ axis.Maximum)
    (hl : b.at (i * 2) ≤ axis.Minimum) (hu : axis.Maximum ≤ b.at (i * 2 + 1)) :
    b.at (i * 2) ≤ (MouseWheelEvent.zoom true b delta i axis).Minimum ∧
    (MouseWheelEvent.zoom true b delta i axis).Minimum ≤ b.at (i * 2 + 1) ∧
    b.at (i * 2) ≤ (MouseWheelEvent.zoom true b delta i axis).Maximum ∧
    (MouseWheelEvent.zoom true b delta i axis).Maximum ≤ b.at (i * 2 + 1) := by
  have hdq : (delta : ℚ) ≤ 20 := by exact_mod_cast hd
  have hw : 0 ≤ axis.Maximum - axis.Minimum := by linarith
  have hm : (delta : ℚ) * ((axis.Maximum - axis.Minimum) * (5 / 100))
      ≤ axis.Maximum - axis.Minimum := by nlinarith
  simp only [MouseWheelEvent.zoom, true_and, vtkAxis.SetRange]
  refine ⟨?_, ?_, ?_, ?_⟩
  · split_ifs <;> linarith
  · split_ifs <;> linarith
  · split_ifs <;> linarith
  · split_ifs <;> linarith

/-! ## Plot collection -/

theorem advance_begin_of_lt (size : Nat) (n : Int) (h0 : 0 ≤ n) (h1 : n < (size : Int)) :
    advance size 0 n = some n.toNat := by
  have h : 0 ≤ ((0 : Nat) : Int) + n ∧ ((0 : Nat) : Int) + n ≤ (size : Int) := by
    constructor <;> simp <;> omega
  simp only [advance, h, and_self, if_true]
  simp

/-- C9: `RemovePlot(i)` with `i >= numberOfPlots()` returns false and leaves the
chart unchanged; with `0 <= i < numberOfPlots()` it returns true, the new
collection is the previous one without its item at position `i` (the items
before `i` followed by the items after `i`, in order), the number of plots
decreases by one and chart-bounds-valid is cleared. -/
theorem RemovePlot_result (s : VTKChartTimeSeries) (i : Int) :
    (s.GetNumberOfPlots ≤ i → s.RemovePlot i = some (false, s)) ∧
    (0 ≤ i → i < s.GetNumberOfPlots →
      ∃ t : VTKChartTimeSeries, s.RemovePlot i = some (true, t) ∧
        t.mp_Plots = s.mp_Plots.take i.toNat ++ s.mp_Plots.drop (i.toNat + 1) ∧
        t.GetNumberOfPlots = s.GetNumberOfPlots - 1 ∧
        t.m_ChartBoundsValid = false) := by
  constructor
  · intro h
    have h2 : ¬ ((s.mp_Plots.length : Int) > i) := by
      simp only [GetNumberOfPlots] at h; omega
    simp [RemovePlot, h2]
  · intro h0 h1
    simp only [GetNumberOfPlots] at h1
    have hlt : i.toNat < s.mp_Plots.length := by omega
    let t : VTKChartTimeSeries :=
      { s with
        mp_Plots := s.mp_Plots.eraseIdx i.toNat
        m_ChartBoundsValid := false
        SceneDirty := true }
    refine ⟨t, ?_, ?_, ?_, rfl⟩
    · have h2 : (s.mp_Plots.length : Int) > i := h1
      simp [RemovePlot, h2, advance_begin_of_lt _ _ h0 h1]
    · exact List.eraseIdx_eq_take_drop_succ _ _
    · simp only [GetNumberOfPlots, List.length_eraseIdx, hlt, if_true]
      omega

/-- C9, witness: removing index `1` of the three plots
`[examplePlot, hiddenPlot, negativePlot]` succeeds and leaves
`[examplePlot, negativePlot]`. -/
theorem RemovePlot_result_witness :
    ∃ t : VTKChartTimeSeries,
      ({ exampleChart with mp_Plots := [examplePlot, hiddenPlot, negativePlot] }).RemovePlot 1
        = some (true, t) ∧
      t.mp_Plots = [examplePlot, negativePlot] ∧ t.m_ChartBoundsValid = false := by
  obtain ⟨t, h1, h2, _, h4⟩ := (RemovePlot_result
    { exampleChart with mp_Plots := [examplePlot, hiddenPlot, negativePlot] } 1).2
    (by decide) (by decide)
  exact ⟨t, h1, by rw [h2]; rfl, h4⟩

/-- C10 (the code departs from it): on a chart holding one plot, `GetPlot(2)`
and `GetPlot(-1)` move the iterator outside `[begin(), end()]`, which is
undefined, instead of returning the null pointer; only `GetPlot(1)`, where the
iterator is `end()`, returns the null pointer. -/
theorem GetPlot_outside_range_undefined :
    ({ exampleChart with mp_Plots := [examplePlot] }).GetNumberOfPlots = 1 ∧
    ({ exampleChart with mp_Plots := [examplePlot] }).GetPlot 2 = none ∧
    ({ exampleChart with mp_Plots := [examplePlot] }).GetPlot (-1) = none ∧
    ({ exampleChart with mp_Plots := [examplePlot] }).GetPlot 2 ≠ some none ∧
    ({ exampleChart with mp_Plots := [examplePlot] }).GetPlot 1 = some none ∧
    ({ exampleChart with mp_Plots := [examplePlot] }).GetPlot 0 = some (some examplePlot) := by
  refine ⟨rfl, ?_, ?_, ?_, ?_, ?_⟩ <;> decide

/-- For an index within `[0, numberOfPlots())`, `GetPlot` returns the item at
that position, and for the index `numberOfPlots()` it returns the null pointer. -/
theorem GetPlot_within_range (s : VTKChartTimeSeries) (i : Int) :
    (0 ≤ i → i < s.GetNumberOfPlots → s.GetPlot i = some (s.mp_Plots[i.toNat]?) ∧
      (s.mp_Plots[i.toNat]?).isSome = true) ∧
    (i = s.GetNumberOfPlots → s.GetPlot i = some none) := by
  constructor
  · intro h0 h1
    simp only [GetNumberOfPlots] at h1
    have hlt : i.toNat < s.mp_Plots.length := by omega
    have hne : i.toNat ≠ s.mp_Plots.length := by omega
    constructor
    · simp [GetPlot, advance_begin_of_lt _ _ h0 h1, hne]
    · simp [hlt]
  · intro h
    subst h
    simp [GetPlot, advance, GetNumberOfPlots]

/-! ## Borders -/

/-- The guard of `SetBorders` looks at the left border only: the call is a
no-op exactly when the left argument equals the stored left border. -/
theorem SetBorders_of_left_eq (s : VTKChartTimeSeries) (left bottom right top : Int)
    (h : s.mp_Borders.left = left) : s.SetBorders left bottom right top = s := by
  simp [SetBorders, Borders4.at, h]

/-- When the left argument differs from the stored left border, `SetBorders`
applies the borders, stores the insets that result, sets the layout-changed
flag and marks the scene dirty. -/
theorem SetBorders_of_left_ne (s : VTKChartTimeSeries) (left bottom right top : Int)
    (h : s.mp_Borders.left ≠ left) :
    (s.SetBorders left bottom right top).mp_Borders
      = { left := (s.vtkChart_SetBorders left bottom right top).Point1.1
          bottom := (s.vtkChart_SetBorders left bottom right top).Point1.2
          right := s.Geometry.1 - (s.vtkChart_SetBorders left bottom right top).Point2.1
          top := s.Geometry.2 - (s.vtkChart_SetBorders left bottom right top).Point2.2 } ∧
    (s.SetBorders left bottom right top).m_BordersChanged = true ∧
    (s.SetBorders left bottom right top).SceneDirty = true := by
  simp [SetBorders, Borders4.at, h, vtkChart_SetBorders]

/-- C11 (the code departs from it): on `exampleChart`, whose stored borders are
`(60, 50, 20, 20)`, the call `SetBorders(60, 10, 20, 20)` keeps the left border
and changes the bottom one, yet it is a no-op: the stored bottom border stays
`50`, the layout-changed flag stays false and the scene is not marked dirty. -/
theorem SetBorders_same_left_is_noop :
    exampleChart.mp_Borders = { left := 60, bottom := 50, right := 20, top := 20 } ∧
    exampleChart.SetBorders 60 10 20 20 = exampleChart ∧
    (exampleChart.SetBorders 60 10 20 20).mp_Borders.bottom = 50 ∧
    (exampleChart.SetBorders 60 10 20 20).m_BordersChanged = false ∧
    (exampleChart.SetBorders 60 10 20 20).SceneDirty = false := by
  have h : exampleChart.SetBorders 60 10 20 20 = exampleChart :=
    SetBorders_of_left_eq exampleChart 60 10 20 20 rfl
  rw [h]
  exact ⟨rfl, rfl, rfl, rfl, rfl⟩

/-! ## Bounds application: `SetBounds` -/

/-- C12: a call `SetBounds(xMin, xMax, yMin, yMax)` whose arguments differ from
the stored bounds in at least one component stores exactly these bounds,
commits `[xMin, xMax]` and `[yMin, yMax]` to the horizontal and vertical axes,
sets chart-bounds-valid, clears plots-transform-valid and marks the scene
dirty; bounds-enabled, the interaction flag, the zoom mode and the plots are
unchanged. -/
theorem SetBounds_stores_and_commits (s : VTKChartTimeSeries) (xMin xMax yMin yMax : ℚ)
    (h : xMin ≠ s.GetBounds.xMin ∨ xMax ≠ s.GetBounds.xMax ∨ yMin ≠ s.GetBounds.yMin
      ∨ yMax ≠ s.GetBounds.yMax) :
    (s.SetBounds4 xMin xMax yMin yMax).GetBounds
      = { xMin := xMin, xMax := xMax, yMin := yMin, yMax := yMax } ∧
    (s.SetBounds4 xMin xMax yMin yMax).mp_AxisX.Minimum = xMin ∧
    (s.SetBounds4 xMin xMax yMin yMax).mp_AxisX.Maximum = xMax ∧
    (s.SetBounds4 xMin xMax yMin yMax).mp_AxisY.Minimum = yMin ∧
    (s.SetBounds4 xMin xMax yMin yMax).mp_AxisY.Maximum = yMax ∧
    (s.SetBounds4 xMin xMax yMin yMax).m_ChartBoundsValid = true ∧
    (s.SetBounds4 xMin xMax yMin yMax).m_PlotsTransformValid = false ∧
    (s.SetBounds4 xMin xMax yMin yMax).SceneDirty = true ∧
    (s.SetBounds4 xMin xMax yMin yMax).m_BoundsEnabled = s.m_BoundsEnabled ∧
    (s.SetBounds4 xMin xMax yMin yMax).m_InteractionEnabled = s.m_InteractionEnabled ∧
    (s.SetBounds4 xMin xMax yMin yMax).m_ZoomMode = s.m_ZoomMode ∧
    (s.SetBounds4 xMin xMax yMin yMax).mp_Plots = s.mp_Plots := by
  have hne : ({ xMin := xMin, xMax := xMax, yMin := yMin, yMax := yMax } : Bounds4)
      ≠ s.mp_Bounds := by
    intro he
    simp only [GetBounds, ← he] at h
    simp at h
  simp only [SetBounds4, GetBounds]
  rw [SetBounds_of_ne s _ hne]
  simp [vtkAxis.SetRange]

/-- C12, witness: on `exampleChart`, whose stored bounds are `(0, 0, 0, 0)`,
`SetBounds(0, 10, 0, 10)` differs in `xMax`. -/
theorem SetBounds_stores_and_commits_witness :
    (exampleChart.SetBounds4 0 10 0 10).GetBounds
      = { xMin := 0, xMax := 10, yMin := 0, yMax := 10 } ∧
    (exampleChart.SetBounds4 0 10 0 10).mp_AxisX.Minimum = 0 ∧
    (exampleChart.SetBounds4 0 10 0 10).mp_AxisX.Maximum = 10 ∧
    (exampleChart.SetBounds4 0 10 0 10).mp_AxisY.Minimum = 0 ∧
    (exampleChart.SetBounds4 0 10 0 10).mp_AxisY.Maximum = 10 ∧
    (exampleChart.SetBounds4 0 10 0 10).m_ChartBoundsValid = true ∧
    (exampleChart.SetBounds4 0 10 0 10).m_PlotsTransformValid = false ∧
    (exampleChart.SetBounds4 0 10 0 10).SceneDirty = true ∧
    (exampleChart.SetBounds4 0 10 0 10).m_BoundsEnabled = exampleChart.m_BoundsEnabled ∧
    (exampleChart.SetBounds4 0 10 0 10).m_InteractionEnabled
      = exampleChart.m_InteractionEnabled ∧
    (exampleChart.SetBounds4 0 10 0 10).m_ZoomMode = exampleChart.m_ZoomMode ∧
    (exampleChart.SetBounds4 0 10 0 10).mp_Plots = exampleChart.mp_Plots :=
  SetBounds_stores_and_commits exampleChart 0 10 0 10
    (Or.inr (Or.inl (by norm_num [GetBounds, exampleChart])))

/-- C13: calling `SetBounds(a, b, c, d)` twice in a row gives the same state
as calling it once, and a call whose arguments equal the stored bounds
component-wise leaves the whole state unchanged. -/
theorem SetBounds_idempotent (s : VTKChartTimeSeries) (a b c d : ℚ) :
    (s.SetBounds4 a b c d).SetBounds4 a b c d = s.SetBounds4 a b c d ∧
    (a = s.GetBounds.xMin ∧ b = s.GetBounds.xMax ∧ c = s.GetBounds.yMin ∧ d = s.GetBounds.yMax →
      s.SetBounds4 a b c d = s) := by
  constructor
  · simp only [SetBounds4]
    exact SetBounds_of_eq _ _ (SetBounds_mp_Bounds s _).symm
  · rintro ⟨ha, hb, hc, hd⟩
    simp only [SetBounds4]
    apply SetBounds_of_eq
    simp only [GetBounds] at ha hb hc hd
    rw [ha, hb, hc, hd]

/-- C13, witness: on `panChart` the stored bounds are `(0, 10, 0, 10)`, and
`SetBounds(0, 10, 0, 10)` leaves the chart, panned axes included, as it is. -/
theorem SetBounds_idempotent_witness :
    (0 : ℚ) = panChart.GetBounds.xMin ∧ (10 : ℚ) = panChart.GetBounds.xMax ∧
    (0 : ℚ) = panChart.GetBounds.yMin ∧ (10 : ℚ) = panChart.GetBounds.yMax ∧
    panChart.SetBounds4 0 10 0 10 = panChart :=
  ⟨rfl, rfl, rfl, rfl, (SetBounds_idempotent panChart 0 10 0 10).2 ⟨rfl, rfl, rfl, rfl⟩⟩

/-! ## Recalculation without visible plot -/

/-- C14: when no plot of the collection is visible, `RecalculateBounds` stores
the bounds `(0, 0, 0, 0)`, whatever they were before; this is in particular so
right after `ClearPlots()`. -/
theorem RecalculateBounds_without_visible_plot (s : VTKChartTimeSeries) :
    ((∀ p ∈ s.mp_Plots, p.Visible = false) →
      (s.RecalculateBounds).GetBounds = { xMin := 0, xMax := 0, yMin := 0, yMax := 0 }) ∧
    (s.ClearPlots.RecalculateBounds).GetBounds
      = { xMin := 0, xMax := 0, yMin := 0, yMax := 0 } := by
  constructor
  · intro h
    apply RecalculateBounds_GetBounds_of_no_visible
    rw [Bool.eq_false_iff]
    intro hany
    obtain ⟨p, hp, hv⟩ := List.any_eq_true.1 hany
    rw [h p hp] at hv
    exact Bool.false_ne_true hv
  · apply RecalculateBounds_GetBounds_of_no_visible
    simp [ClearPlots]

/-- C14, witness: `zoomChart` with the single invisible plot `hiddenPlot` has
stored bounds `(0, 10, 0, 10)` before and `(0, 0, 0, 0)` after. -/
theorem RecalculateBounds_without_visible_plot_witness :
    ({ zoomChart with mp_Plots := [hiddenPlot] }).GetBounds
      = { xMin := 0, xMax := 10, yMin := 0, yMax := 10 } ∧
    (∀ p ∈ ({ zoomChart with mp_Plots := [hiddenPlot] }).mp_Plots, p.Visible = false) ∧
    (({ zoomChart with mp_Plots := [hiddenPlot] }).RecalculateBounds).GetBounds
      = { xMin := 0, xMax := 0, yMin := 0, yMax := 0 } := by
  have hv : ∀ p ∈ ({ zoomChart with mp_Plots := [hiddenPlot] }).mp_Plots, p.Visible = false := by
    intro p hp
    simp only [List.mem_singleton] at hp
    rw [hp]; rfl
  exact ⟨rfl, hv,
    (RecalculateBounds_without_visible_plot { zoomChart with mp_Plots := [hiddenPlot] }).1 hv⟩

/-! ## Adding plots -/

/-- A call `AddPlot(LINE)` returns the new plot and appends it to the collection. -/
theorem AddPlot_LINE (s : VTKChartTimeSeries) (line : vtkPlot) :
    ∃ p : vtkPlot, p.Visible = line.Visible ∧ p.Bounds = line.Bounds ∧
      s.AddPlot LINE line
        = (some p, { s with
            mp_Plots := s.mp_Plots ++ [p]
            m_ChartBoundsValid := false
            SceneDirty := true }) := by
  cases hc : s.mp_Colors with
  | none =>
    exact ⟨{ line with PenColor := (0, 0, 0) }, rfl, rfl, by simp [AddPlot, hc]⟩
  | some colors =>
    exact ⟨{ line with PenColor := colors.GetColorRepeating (s.mp_Plots.length : Int) },
      rfl, rfl, by simp [AddPlot, hc]⟩

/-- A call `AddPlot` with a type other than `LINE` returns null and changes nothing. -/
theorem AddPlot_not_LINE (s : VTKChartTimeSeries) (type : Int) (line : vtkPlot)
    (h : type ≠ LINE) : s.AddPlot type line = (none, s) := by
  simp only [AddPlot, h, if_false]

/-- The number of plots after one `AddPlot` call. -/
theorem AddPlot_GetNumberOfPlots (s : VTKChartTimeSeries) (type : Int) (line : vtkPlot) :
    (s.AddPlot type line).2.GetNumberOfPlots
      = s.GetNumberOfPlots + (if type = LINE then 1 else 0) := by
  by_cases h : type = LINE
  · subst h
    obtain ⟨p, _, _, hp⟩ := AddPlot_LINE s line
    rw [hp]
    simp [GetNumberOfPlots]
  · rw [AddPlot_not_LINE s type line h]
    simp [h]

/-- C15: for every sequence of `AddPlot` calls, the number of plots is the
initial one plus the number of calls of type `LINE`; a call of type `LINE`
returns an item, appends it at the end of the collection and clears
chart-bounds-valid; a call of any other type returns no item and leaves the
chart (collection, number of plots, chart-bounds-valid) unchanged. -/
theorem AddPlot_sequence (s : VTKChartTimeSeries) (calls : List (Int × vtkPlot))
    (type : Int) (line : vtkPlot) :
    (s.AddPlots calls).GetNumberOfPlots
      = s.GetNumberOfPlots + ((calls.filter (fun c => decide (c.1 = LINE))).length : Int) ∧
    (∃ p : vtkPlot, (s.AddPlot LINE line).1 = some p ∧
      (s.AddPlot LINE line).2.mp_Plots = s.mp_Plots ++ [p] ∧
      (s.AddPlot LINE line).2.GetNumberOfPlots = s.GetNumberOfPlots + 1 ∧
      (s.AddPlot LINE line).2.m_ChartBoundsValid = false) ∧
    (type ≠ LINE → (s.AddPlot type line).1 = none ∧ (s.AddPlot type line).2 = s) := by
  refine ⟨?_, ?_, ?_⟩
  · induction calls generalizing s with
    | nil => simp [AddPlots]
    | cons c cs ih =>
      have hstep : s.AddPlots (c :: cs) = (s.AddPlot c.1 c.2).2.AddPlots cs := by
        simp [AddPlots]
      rw [hstep, ih, AddPlot_GetNumberOfPlots]
      by_cases h : c.1 = LINE
      · simp [h]; ring
      · simp [h]
  · obtain ⟨p, _, _, hp⟩ := AddPlot_LINE s line
    refine ⟨p, ?_, ?_, ?_, ?_⟩
    · rw [hp]
    · rw [hp]
    · rw [hp]; simp [GetNumberOfPlots]
    · rw [hp]
  · intro h
    rw [AddPlot_not_LINE s type line h]
    exact ⟨rfl, rfl⟩

/-- C15, witness: on `exampleChart` the calls `LINE, POINTS, LINE, 5` leave two
plots, and `AddPlot(BAR)` returns no item and changes nothing. -/
theorem AddPlot_sequence_witness :
    (exampleChart.AddPlots
      [(LINE, examplePlot), (POINTS, examplePlot), (LINE, hiddenPlot), (5, examplePlot)]
      ).GetNumberOfPlots = 0 + 2 ∧
    BAR ≠ LINE ∧
    (exampleChart.AddPlot BAR examplePlot).1 = none ∧
    (exampleChart.AddPlot BAR examplePlot).2 = exampleChart := by
  have h := AddPlot_sequence exampleChart
    [(LINE, examplePlot), (POINTS, examplePlot), (LINE, hiddenPlot), (5, examplePlot)]
    BAR examplePlot
  have hb : BAR ≠ LINE := by decide
  exact ⟨h.1, hb, (h.2.2 hb).1, (h.2.2 hb).2⟩

/-! ## Interaction disabled -/

/-- C16: when interaction is disabled, the pointer-move handler and the wheel
handler return true and leave the whole chart state unchanged. -/
theorem interaction_disabled_noop (s : VTKChartTimeSeries) (mouse : vtkContextMouseEvent)
    (delta : Int) (h : s.m_InteractionEnabled = false) :
    s.MouseMoveEvent mouse = (true, s) ∧ s.MouseWheelEvent delta = (true, s) := by
  simp [MouseMoveEvent, MouseWheelEvent, h]

/-- C16, witness: `panChart` with interaction disabled is unchanged by
`panMouse` and by a wheel event of delta `3`. -/
theorem interaction_disabled_noop_witness :
    ({ panChart with m_InteractionEnabled := false }).MouseMoveEvent panMouse
      = (true, { panChart with m_InteractionEnabled := false }) ∧
    ({ panChart with m_InteractionEnabled := false }).MouseWheelEvent 3
      = (true, { panChart with m_InteractionEnabled := false }) :=
  interaction_disabled_noop { panChart with m_InteractionEnabled := false } panMouse 3 rfl

/-! ## Painting -/

/-- With a scene of non-zero width and height, `Paint` returns true. -/
theorem Paint_of_nonzero (s : VTKChartTimeSeries) (sceneWidth sceneHeight : Int)
    (hw : sceneWidth ≠ 0) (hh : sceneHeight ≠ 0) : (s.Paint sceneWidth sceneHeight).1 = true := by
  simp [Paint, hw, hh]

/-- With a scene of zero width or height, `Paint` returns false, leaves the
chart as it was and calls none of its collaborators. -/
theorem Paint_of_zero (s : VTKChartTimeSeries) (sceneWidth sceneHeight : Int)
    (h : sceneWidth = 0 ∨ sceneHeight = 0) : s.Paint sceneWidth sceneHeight = (false, s, []) := by
  simp [Paint, h]

/-- C17: `Paint` returns false if and only if the scene width or the scene
height is zero; and when it returns false the chart state is exactly what it
was and no call was made to a plot (or to any other collaborator). -/
theorem Paint_false_iff (s : VTKChartTimeSeries) (sceneWidth sceneHeight : Int) :
    ((s.Paint sceneWidth sceneHeight).1 = false ↔ (sceneWidth = 0 ∨ sceneHeight = 0)) ∧
    ((s.Paint sceneWidth sceneHeight).1 = false →
      (s.Paint sceneWidth sceneHeight).2.1 = s ∧ (s.Paint sceneWidth sceneHeight).2.2 = []) := by
  have hiff : (s.Paint sceneWidth sceneHeight).1 = false ↔ (sceneWidth = 0 ∨ sceneHeight = 0) := by
    constructor
    · intro hf
      by_contra hn
      push_neg at hn
      rw [Paint_of_nonzero s sceneWidth sceneHeight hn.1 hn.2] at hf
      exact Bool.noConfusion hf
    · intro h
      rw [Paint_of_zero s sceneWidth sceneHeight h]
  refine ⟨hiff, ?_⟩
  intro hf
  rw [Paint_of_zero s sceneWidth sceneHeight (hiff.1 hf)]
  exact ⟨rfl, rfl⟩

/-- C17, witness: painting `pannedChart` (one plot, chart-bounds-valid cleared)
in a scene of width `0` returns false, changes nothing and calls nothing. -/
theorem Paint_false_iff_witness :
    (pannedChart.Paint 0 370).1 = false ∧
    (pannedChart.Paint 0 370).2.1 = pannedChart ∧ (pannedChart.Paint 0 370).2.2 = [] := by
  have h := Paint_false_iff pannedChart 0 370
  have hf : (pannedChart.Paint 0 370).1 = false := h.1.2 (Or.inl rfl)
  exact ⟨hf, (h.2 hf).1, (h.2 hf).2⟩

/-! ## Transform recomputation -/

/-- C18: whenever the horizontal or the vertical axis has `max == min`,
`RecalculatePlotsTransform` leaves the transform matrix and the
plots-transform-valid flag (indeed the whole chart) exactly as they were, and
`Paint` with a non-zero scene size still returns true. -/
theorem RecalculatePlotsTransform_skipped (s : VTKChartTimeSeries)
    (sceneWidth sceneHeight : Int)
    (hdeg : s.mp_AxisX.Maximum = s.mp_AxisX.Minimum ∨ s.mp_AxisY.Maximum = s.mp_AxisY.Minimum) :
    (s.RecalculatePlotsTransform).mp_PlotsTransform = s.mp_PlotsTransform ∧
    (s.RecalculatePlotsTransform).m_PlotsTransformValid = s.m_PlotsTransformValid ∧
    s.RecalculatePlotsTransform = s ∧
    (sceneWidth ≠ 0 → sceneHeight ≠ 0 → (s.Paint sceneWidth sceneHeight).1 = true) := by
  have hs : s.RecalculatePlotsTransform = s := by
    rcases hdeg with h | h
    · simp [RecalculatePlotsTransform, h]
    · by_cases hx : s.mp_AxisX.Maximum = s.mp_AxisX.Minimum
      · simp [RecalculatePlotsTransform, hx]
      · simp [RecalculatePlotsTransform, hx, h]
  rw [hs]
  exact ⟨rfl, rfl, rfl, fun hw hh => by simp [Paint, hw, hh]⟩

/-- C18, witness: on `degenerateChart`, whose horizontal range is `[3, 3]`, the
recomputation changes nothing (the flag stays false) and `Paint` in a scene of
480 by 370 pixels returns true. -/
theorem RecalculatePlotsTransform_skipped_witness :
    degenerateChart.mp_AxisX.Maximum = degenerateChart.mp_AxisX.Minimum ∧
    degenerateChart.RecalculatePlotsTransform = degenerateChart ∧
    (degenerateChart.RecalculatePlotsTransform).m_PlotsTransformValid = false ∧
    (degenerateChart.Paint 480 370).1 = true := by
  have h := RecalculatePlotsTransform_skipped degenerateChart 480 370 (Or.inl rfl)
  exact ⟨rfl, h.2.2.1, h.2.1, h.2.2.2 (by decide) (by decide)⟩

/-- When both axes have `max != min`, `RecalculatePlotsTransform` stores the
matrix of `translate(Point1) * scale(scaleX, scaleY) * translate(-min)` and sets
plots-transform-valid. -/
theorem RecalculatePlotsTransform_matrix (s : VTKChartTimeSeries)
    (hX : s.mp_AxisX.Maximum ≠ s.mp_AxisX.Minimum)
    (hY : s.mp_AxisY.Maximum ≠ s.mp_AxisY.Minimum) :
    s.RecalculatePlotsTransform =
      { s with
        mp_PlotsTransform :=
          { m00 := (s.mp_AxisX.Point2.1 - s.mp_AxisX.Point1.1)
              / (s.mp_AxisX.Maximum - s.mp_AxisX.Minimum)
            m01 := 0
            m02 := (s.Point1.1 : ℚ) - (s.mp_AxisX.Point2.1 - s.mp_AxisX.Point1.1)
              / (s.mp_AxisX.Maximum - s.mp_AxisX.Minimum) * s.mp_AxisX.Minimum
            m10 := 0
            m11 := (s.mp_AxisY.Point2.2 - s.mp_AxisY.Point1.2)
              / (s.mp_AxisY.Maximum - s.mp_AxisY.Minimum)
            m12 := (s.Point1.2 : ℚ) - (s.mp_AxisY.Point2.2 - s.mp_AxisY.Point1.2)
              / (s.mp_AxisY.Maximum - s.mp_AxisY.Minimum) * s.mp_AxisY.Minimum }
        m_PlotsTransformValid := true } := by
  simp only [RecalculatePlotsTransform, hX, hY, if_false, at2, vtkTransform2D.Identity,
    vtkTransform2D.Translate, vtkTransform2D.Scale, if_true, one_ne_zero]
  congr 1
  simp only [vtkTransform2D.mk.injEq]
  refine ⟨by ring, by ring, by ring, by ring, by ring, by ring⟩

/-- C19: `GetAxis(0)` is the vertical axis, `GetAxis(1)` the horizontal axis,
`GetAxis(k)` for any other integer `k` is null, and the number of axes is 2. -/
theorem GetAxis_by_index (s : VTKChartTimeSeries) (k : Int) :
    s.GetAxis 0 = some s.mp_AxisY ∧
    s.GetAxis 1 = some s.mp_AxisX ∧
    (k ≠ 0 → k ≠ 1 → s.GetAxis k = none) ∧
    s.GetNumberOfAxes = 2 := by
  refine ⟨rfl, rfl, ?_, rfl⟩
  intro h0 h1
  simp [GetAxis, h0, h1]

/-- C19, witness: on `panChart`, `GetAxis(2)` is null while `GetAxis(0)`
displays `[2, 6]` and `GetAxis(1)` displays `[1, 5]`. -/
theorem GetAxis_by_index_witness :
    panChart.GetAxis 0 = some (exampleAxis 2 6) ∧
    panChart.GetAxis 1 = some (exampleAxis 1 5) ∧
    panChart.GetAxis 2 = none ∧
    panChart.GetNumberOfAxes = 2 := by
  have h := GetAxis_by_index panChart 2
  exact ⟨h.1, h.2.1, h.2.2.1 (by decide) (by decide), h.2.2.2⟩

/-- The image of a data point under a transform recomputed from two
non-degenerate axes. -/
theorem RecalculatePlotsTransform_TransformPoint (s : VTKChartTimeSeries) (x y : ℚ)
    (hX : s.mp_AxisX.Maximum ≠ s.mp_AxisX.Minimum)
    (hY : s.mp_AxisY.Maximum ≠ s.mp_AxisY.Minimum) :
    (s.RecalculatePlotsTransform).mp_PlotsTransform.TransformPoint (x, y)
      = ((s.Point1.1 : ℚ) + (x - s.mp_AxisX.Minimum)
            * (s.mp_AxisX.Point2.1 - s.mp_AxisX.Point1.1)
            / (s.mp_AxisX.Maximum - s.mp_AxisX.Minimum),
          (s.Point1.2 : ℚ) + (y - s.mp_AxisY.Minimum)
            * (s.mp_AxisY.Point2.2 - s.mp_AxisY.Point1.2)
            / (s.mp_AxisY.Maximum - s.mp_AxisY.Minimum)) := by
  rw [RecalculatePlotsTransform_matrix s hX hY]
  simp only [vtkTransform2D.TransformPoint, Prod.mk.injEq]
  constructor <;> ring

/-- With anchored axes, the recomputed transform sends the lower data corner to
`Point1` and the upper data corner to `Point2`. -/
theorem RecalculatePlotsTransform_corners (s : VTKChartTimeSeries)
    (hX : s.mp_AxisX.Maximum ≠ s.mp_AxisX.Minimum)
    (hY : s.mp_AxisY.Maximum ≠ s.mp_AxisY.Minimum) (hA : s.AxesAnchored) :
    (s.RecalculatePlotsTransform).mp_PlotsTransform.TransformPoint
        (s.mp_AxisX.Minimum, s.mp_AxisY.Minimum) = ((s.Point1.1 : ℚ), (s.Point1.2 : ℚ)) ∧
    (s.RecalculatePlotsTransform).mp_PlotsTransform.TransformPoint
        (s.mp_AxisX.Maximum, s.mp_AxisY.Maximum) = ((s.Point2.1 : ℚ), (s.Point2.2 : ℚ)) := by
  obtain ⟨h1, h2, h3, h4⟩ := hA
  have hX0 : s.mp_AxisX.Maximum - s.mp_AxisX.Minimum ≠ 0 := sub_ne_zero.2 hX
  have hY0 : s.mp_AxisY.Maximum - s.mp_AxisY.Minimum ≠ 0 := sub_ne_zero.2 hY
  rw [RecalculatePlotsTransform_TransformPoint s _ _ hX hY,
    RecalculatePlotsTransform_TransformPoint s _ _ hX hY, h1, h2, h3, h4]
  simp only [Prod.mk.injEq]
  refine ⟨⟨?_, ?_⟩, ⟨?_, ?_⟩⟩
  · simp
  · simp
  · field_simp
  · field_simp

/-- C20: when both axes have `max != min`, the transform cached by
`RecalculatePlotsTransform` maps every data point `(x, y)` to
`(P1x + (x - minX)*(X2 - X1)/(maxX - minX), P1y + (y - minY)*(Y2 - Y1)/(maxY - minY))`
with `P1` the chart origin and `X1, X2` (`Y1, Y2`) the screen endpoint
coordinates of the horizontal (vertical) axis, and plots-transform-valid is
true; when the axes are anchored at the chart corners, `(minX, minY)` maps to
`Point1` and `(maxX, maxY)` to `Point2`. -/
theorem RecalculatePlotsTransform_maps_data_to_screen (s : VTKChartTimeSeries) (x y : ℚ)
    (hX : s.mp_AxisX.Maximum ≠ s.mp_AxisX.Minimum)
    (hY : s.mp_AxisY.Maximum ≠ s.mp_AxisY.Minimum) :
    (s.RecalculatePlotsTransform).mp_PlotsTransform.TransformPoint (x, y)
      = ((s.Point1.1 : ℚ) + (x - s.mp_AxisX.Minimum)
            * (s.mp_AxisX.Point2.1 - s.mp_AxisX.Point1.1)
            / (s.mp_AxisX.Maximum - s.mp_AxisX.Minimum),
          (s.Point1.2 : ℚ) + (y - s.mp_AxisY.Minimum)
            * (s.mp_AxisY.Point2.2 - s.mp_AxisY.Point1.2)
            / (s.mp_AxisY.Maximum - s.mp_AxisY.Minimum)) ∧
    (s.RecalculatePlotsTransform).m_PlotsTransformValid = true ∧
    (s.AxesAnchored →
      (s.RecalculatePlotsTransform).mp_PlotsTransform.TransformPoint
          (s.mp_AxisX.Minimum, s.mp_AxisY.Minimum) = ((s.Point1.1 : ℚ), (s.Point1.2 : ℚ)) ∧
      (s.RecalculatePlotsTransform).mp_PlotsTransform.TransformPoint
          (s.mp_AxisX.Maximum, s.mp_AxisY.Maximum) = ((s.Point2.1 : ℚ), (s.Point2.2 : ℚ))) := by
  refine ⟨RecalculatePlotsTransform_TransformPoint s x y hX hY, ?_,
    RecalculatePlotsTransform_corners s hX hY⟩
  rw [RecalculatePlotsTransform_matrix s hX hY]

/-- The layout block of `Paint` anchors both axes and clears plots-transform-valid. -/
theorem Paint_layout_anchors (s : VTKChartTimeSeries) (geometry : Int × Int) :
    (Paint.layout s geometry).AxesAnchored ∧
    (Paint.layout s geometry).m_PlotsTransformValid = false := by
  simp [Paint.layout, AxesAnchored, vtkChart_SetBorders]

/-- A call of `SetBounds` moves no screen endpoint and no chart corner, and
never sets plots-transform-valid. -/
theorem SetBounds_keeps_anchor (s : VTKChartTimeSeries) (bounds : Bounds4)
    (hA : s.AxesAnchored) (hT : s.m_PlotsTransformValid = false) :
    (s.SetBounds bounds).AxesAnchored ∧ (s.SetBounds bounds).m_PlotsTransformValid = false := by
  by_cases h : bounds = s.mp_Bounds
  · rw [SetBounds_of_eq s bounds h]
    exact ⟨hA, hT⟩
  · rw [SetBounds_of_ne s bounds h]
    exact ⟨hA, rfl⟩

/-- A `Paint` that runs its layout block in a scene of non-zero size and ends
with two non-degenerate axes leaves a valid transform that sends the lower
corner of the displayed data ranges to `Point1` and the upper corner to `Point2`. -/
theorem Paint_after_layout_maps_corners (s : VTKChartTimeSeries) (sceneWidth sceneHeight : Int)
    (hw : sceneWidth ≠ 0) (hh : sceneHeight ≠ 0)
    (hl : sceneWidth ≠ s.Geometry.1 ∨ sceneHeight ≠ s.Geometry.2 ∨ s.m_BordersChanged = true)
    (hX : (s.Paint sceneWidth sceneHeight).2.1.mp_AxisX.Maximum
      ≠ (s.Paint sceneWidth sceneHeight).2.1.mp_AxisX.Minimum)
    (hY : (s.Paint sceneWidth sceneHeight).2.1.mp_AxisY.Maximum
      ≠ (s.Paint sceneWidth sceneHeight).2.1.mp_AxisY.Minimum) :
    (s.Paint sceneWidth sceneHeight).2.1.mp_PlotsTransform.TransformPoint
        ((s.Paint sceneWidth sceneHeight).2.1.mp_AxisX.Minimum,
          (s.Paint sceneWidth sceneHeight).2.1.mp_AxisY.Minimum)
      = (((s.Paint sceneWidth sceneHeight).2.1.Point1.1 : ℚ),
          ((s.Paint sceneWidth sceneHeight).2.1.Point1.2 : ℚ)) ∧
    (s.Paint sceneWidth sceneHeight).2.1.mp_PlotsTransform.TransformPoint
        ((s.Paint sceneWidth sceneHeight).2.1.mp_AxisX.Maximum,
          (s.Paint sceneWidth sceneHeight).2.1.mp_AxisY.Maximum)
      = (((s.Paint sceneWidth sceneHeight).2.1.Point2.1 : ℚ),
          ((s.Paint sceneWidth sceneHeight).2.1.Point2.2 : ℚ)) ∧
    (s.Paint sceneWidth sceneHeight).2.1.m_PlotsTransformValid = true := by
  obtain ⟨t, ht, hA, hT⟩ : ∃ t : VTKChartTimeSeries,
      (s.Paint sceneWidth sceneHeight).2.1 = t.RecalculatePlotsTransform ∧ t.AxesAnchored ∧
        t.m_PlotsTransformValid = false := by
    have hL := Paint_layout_anchors s (sceneWidth, sceneHeight)
    by_cases hv : (Paint.layout s (sceneWidth, sceneHeight)).m_ChartBoundsValid = true
    · refine ⟨Paint.layout s (sceneWidth, sceneHeight), ?_, hL.1, hL.2⟩
      simp [Paint, hw, hh, hl, Update, hv, hL.2]
    · obtain ⟨bounds, hb⟩ := RecalculateBounds_eq_SetBounds (Paint.layout s (sceneWidth, sceneHeight))
      have hK := SetBounds_keeps_anchor _ bounds hL.1 hL.2
      refine ⟨(Paint.layout s (sceneWidth, sceneHeight)).SetBounds bounds, ?_, hK.1, hK.2⟩
      simp [Paint, hw, hh, hl, Update, hv, hb, hK.2]
  rw [ht] at hX hY ⊢
  have hX2 : t.mp_AxisX.Maximum ≠ t.mp_AxisX.Minimum := by
    intro h
    apply hX
    simp [RecalculatePlotsTransform, h]
  have hY2 : t.mp_AxisY.Maximum ≠ t.mp_AxisY.Minimum := by
    intro h
    apply hY
    by_cases hx : t.mp_AxisX.Maximum = t.mp_AxisX.Minimum
    · simp [RecalculatePlotsTransform, hx, h]
    · simp [RecalculatePlotsTransform, hx, h]
  have hC := RecalculatePlotsTransform_corners t hX2 hY2 hA
  have hM := RecalculatePlotsTransform_matrix t hX2 hY2
  have e1 : t.RecalculatePlotsTransform.mp_AxisX = t.mp_AxisX := by rw [hM]
  have e2 : t.RecalculatePlotsTransform.mp_AxisY = t.mp_AxisY := by rw [hM]
  have e3 : t.RecalculatePlotsTransform.Point1 = t.Point1 := by rw [hM]
  have e4 : t.RecalculatePlotsTransform.Point2 = t.Point2 := by rw [hM]
  have e5 : t.RecalculatePlotsTransform.m_PlotsTransformValid = true := by rw [hM]
  rw [e1, e2, e3, e4, e5]
  exact ⟨hC.1, hC.2, rfl⟩

/-- C20, witness: the layout block of `Paint` applied to `exampleChart` in a
scene of 500 by 400 pixels anchors the axes, which display `[0, 100]`; the
recomputed transform maps `(0, 0)` to `Point1 = (60, 50)`, `(100, 100)` to
`Point2 = (480, 380)` and `(50, 50)` to the middle `(270, 215)`. -/
theorem RecalculatePlotsTransform_maps_data_to_screen_witness :
    (Paint.layout exampleChart (500, 400)).AxesAnchored ∧
    ((Paint.layout exampleChart (500, 400)).RecalculatePlotsTransform).mp_PlotsTransform.TransformPoint
        (0, 0) = (60, 50) ∧
    ((Paint.layout exampleChart (500, 400)).RecalculatePlotsTransform).mp_PlotsTransform.TransformPoint
        (100, 100) = (480, 380) ∧
    ((Paint.layout exampleChart (500, 400)).RecalculatePlotsTransform).mp_PlotsTransform.TransformPoint
        (50, 50) = (270, 215) ∧
    ((Paint.layout exampleChart (500, 400)).RecalculatePlotsTransform).m_PlotsTransformValid
      = true := by
  have hX : (Paint.layout exampleChart (500, 400)).mp_AxisX.Maximum
      ≠ (Paint.layout exampleChart (500, 400)).mp_AxisX.Minimum := by
    norm_num [Paint.layout, exampleChart, exampleAxis, vtkChart_SetBorders]
  have hY : (Paint.layout exampleChart (500, 400)).mp_AxisY.Maximum
      ≠ (Paint.layout exampleChart (500, 400)).mp_AxisY.Minimum := by
    norm_num [Paint.layout, exampleChart, exampleAxis, vtkChart_SetBorders]
  have hA := (Paint_layout_anchors exampleChart (500, 400)).1
  have h := RecalculatePlotsTransform_maps_data_to_screen (Paint.layout exampleChart (500, 400))
    50 50 hX hY
  obtain ⟨h1, h2, h3⟩ := h
  obtain ⟨h4, h5⟩ := h3 hA
  refine ⟨hA, ?_, ?_, ?_, h2⟩
  · rw [show ((0 : ℚ), (0 : ℚ)) = ((Paint.layout exampleChart (500, 400)).mp_AxisX.Minimum,
      (Paint.layout exampleChart (500, 400)).mp_AxisY.Minimum) from by
        simp [Paint.layout, exampleChart, exampleAxis, vtkChart_SetBorders], h4]
    simp [Paint.layout, exampleChart, vtkChart_SetBorders, Borders4.at]
  · rw [show ((100 : ℚ), (100 : ℚ)) = ((Paint.layout exampleChart (500, 400)).mp_AxisX.Maximum,
      (Paint.layout exampleChart (500, 400)).mp_AxisY.Maximum) from by
        simp [Paint.layout, exampleChart, exampleAxis, vtkChart_SetBorders], h5]
    simp [Paint.layout, exampleChart, vtkChart_SetBorders, Borders4.at]
  · rw [h1]
    simp [Paint.layout, exampleChart, exampleAxis, vtkChart_SetBorders, Borders4.at]
    norm_num

/-! ## Pan without bounds, and degenerate ranges -/

/-- A pointer move changes neither the stored bounds nor the flags of the
chart other than plots-transform-valid and the dirty mark. -/
theorem MouseMoveEvent_frame (s : VTKChartTimeSeries) (mouse : vtkContextMouseEvent) :
    (s.MouseMoveEvent mouse).2.mp_Bounds = s.mp_Bounds ∧
    (s.MouseMoveEvent mouse).2.m_ChartBoundsValid = s.m_ChartBoundsValid ∧
    (s.MouseMoveEvent mouse).2.m_BoundsEnabled = s.m_BoundsEnabled ∧
    (s.MouseMoveEvent mouse).2.m_InteractionEnabled = s.m_InteractionEnabled ∧
    (s.MouseMoveEvent mouse).2.m_ZoomMode = s.m_ZoomMode := by
  by_cases hI : s.m_InteractionEnabled = true
  · simp [MouseMoveEvent, hI, range_two, MouseMoveEvent.body, GetAxis, putAxis]
  · simp [MouseMoveEvent, hI]

/-- A wheel event changes neither the stored bounds nor the flags of the chart
other than plots-transform-valid and the dirty mark. -/
theorem MouseWheelEvent_frame (s : VTKChartTimeSeries) (delta : Int) :
    (s.MouseWheelEvent delta).2.mp_Bounds = s.mp_Bounds ∧
    (s.MouseWheelEvent delta).2.m_ChartBoundsValid = s.m_ChartBoundsValid ∧
    (s.MouseWheelEvent delta).2.m_BoundsEnabled = s.m_BoundsEnabled ∧
    (s.MouseWheelEvent delta).2.m_InteractionEnabled = s.m_InteractionEnabled ∧
    (s.MouseWheelEvent delta).2.m_ZoomMode = s.m_ZoomMode := by
  by_cases hI : s.m_InteractionEnabled = true
  · by_cases h0 : s.m_ZoomMode = 0 <;> by_cases h1 : s.m_ZoomMode = 1 <;>
      simp [MouseWheelEvent, hI, range_two, MouseWheelEvent.body, GetAxis, putAxis, BOTH, h0, h1]
  · simp [MouseWheelEvent, hI]

/-- Without bounds, one pan step shifts both ends of the range by the
data-space delta. -/
theorem pan_unbounded (b : Bounds4) (mouse : vtkContextMouseEvent) (i : Nat) (axis : vtkAxis) :
    MouseMoveEvent.pan false b mouse i axis
      = axis.SetRange
          (axis.Minimum + (at2 mouse.LastScreenPos i - at2 mouse.ScreenPos i)
            * ((axis.Maximum - axis.Minimum) / (at2 axis.Point2 i - at2 axis.Point1 i)))
          (axis.Maximum + (at2 mouse.LastScreenPos i - at2 mouse.ScreenPos i)
            * ((axis.Maximum - axis.Minimum) / (at2 axis.Point2 i - at2 axis.Point1 i))) := by
  simp [MouseMoveEvent.pan]

/-- Without bounds, one pan step leaves an axis with `min == max` as it is: the
scale, hence the delta, is zero. -/
theorem pan_of_degenerate (b : Bounds4) (mouse : vtkContextMouseEvent) (i : Nat)
    (axis : vtkAxis) (h : axis.Minimum = axis.Maximum) :
    MouseMoveEvent.pan false b mouse i axis = axis := by
  rw [pan_unbounded]
  cases axis with
  | mk lo hi p1 p2 =>
    simp only at h
    subst h
    simp [vtkAxis.SetRange]

/-- Without bounds, one zoom step leaves an axis with `min == max` as it is:
the fraction of the range is zero. -/
theorem zoom_of_degenerate (b : Bounds4) (delta : Int) (i : Nat) (axis : vtkAxis)
    (h : axis.Minimum = axis.Maximum) :
    MouseWheelEvent.zoom false b delta i axis = axis := by
  cases axis with
  | mk lo hi p1 p2 =>
    simp only at h
    subst h
    simp [MouseWheelEvent.zoom, vtkAxis.SetRange]

/-- C21: with interaction enabled and bounds disabled, for each axis dimension
with a non-zero screen span a pointer move commits `[min + d, max + d]` with
`d = (previous position - current position) * (max - min) / (endpoint 2 - endpoint 1)`
along that dimension, so that the width `max - min` is unchanged; the stored
bounds and chart-bounds-valid are unchanged and plots-transform-valid is
cleared. -/
theorem MouseMoveEvent_unbounded_shift (s : VTKChartTimeSeries) (mouse : vtkContextMouseEvent)
    (dx dy : ℚ)
    (hI : s.m_InteractionEnabled = true) (hB : s.m_BoundsEnabled = false)
    (hdx : dx = (mouse.LastScreenPos.1 - mouse.ScreenPos.1)
      * ((s.mp_AxisX.Maximum - s.mp_AxisX.Minimum) / (s.mp_AxisX.Point2.1 - s.mp_AxisX.Point1.1)))
    (hdy : dy = (mouse.LastScreenPos.2 - mouse.ScreenPos.2)
      * ((s.mp_AxisY.Maximum - s.mp_AxisY.Minimum) / (s.mp_AxisY.Point2.2 - s.mp_AxisY.Point1.2))) :
    (s.mp_AxisX.Point2.1 - s.mp_AxisX.Point1.1 ≠ 0 →
      (s.MouseMoveEvent mouse).2.mp_AxisX.Minimum = s.mp_AxisX.Minimum + dx ∧
      (s.MouseMoveEvent mouse).2.mp_AxisX.Maximum = s.mp_AxisX.Maximum + dx ∧
      (s.MouseMoveEvent mouse).2.mp_AxisX.Maximum - (s.MouseMoveEvent mouse).2.mp_AxisX.Minimum
        = s.mp_AxisX.Maximum - s.mp_AxisX.Minimum) ∧
    (s.mp_AxisY.Point2.2 - s.mp_AxisY.Point1.2 ≠ 0 →
      (s.MouseMoveEvent mouse).2.mp_AxisY.Minimum = s.mp_AxisY.Minimum + dy ∧
      (s.MouseMoveEvent mouse).2.mp_AxisY.Maximum = s.mp_AxisY.Maximum + dy ∧
      (s.MouseMoveEvent mouse).2.mp_AxisY.Maximum - (s.MouseMoveEvent mouse).2.mp_AxisY.Minimum
        = s.mp_AxisY.Maximum - s.mp_AxisY.Minimum) ∧
    (s.MouseMoveEvent mouse).2.mp_Bounds = s.mp_Bounds ∧
    (s.MouseMoveEvent mouse).2.m_ChartBoundsValid = s.m_ChartBoundsValid ∧
    (s.MouseMoveEvent mouse).2.m_PlotsTransformValid = false := by
  have hF := MouseMoveEvent_frame s mouse
  rw [MouseMoveEvent_AxisX s mouse hI, MouseMoveEvent_AxisY s mouse hI, hB, pan_unbounded,
    pan_unbounded]
  subst hdx hdy
  refine ⟨?_, ?_, hF.1, hF.2.1, ?_⟩
  · intro _
    simp [vtkAxis.SetRange, at2]
  · intro _
    simp [vtkAxis.SetRange, at2]
  · simp [MouseMoveEvent, hI]

/-- C21, witness: on `exampleChart` (ranges `[0, 100]`, screen spans 400 and
300) the pointer move `dragMouse` has the deltas `25` and `-10`: the horizontal
range becomes `[25, 125]` and the vertical one `[-10, 90]`. -/
theorem MouseMoveEvent_unbounded_shift_witness :
    exampleChart.m_InteractionEnabled = true ∧ exampleChart.m_BoundsEnabled = false ∧
    exampleChart.mp_AxisX.Point2.1 - exampleChart.mp_AxisX.Point1.1 ≠ 0 ∧
    exampleChart.mp_AxisY.Point2.2 - exampleChart.mp_AxisY.Point1.2 ≠ 0 ∧
    (exampleChart.MouseMoveEvent dragMouse).2.mp_AxisX.Minimum = 25 ∧
    (exampleChart.MouseMoveEvent dragMouse).2.mp_AxisX.Maximum = 125 ∧
    (exampleChart.MouseMoveEvent dragMouse).2.mp_AxisY.Minimum = -10 ∧
    (exampleChart.MouseMoveEvent dragMouse).2.mp_AxisY.Maximum = 90 ∧
    (exampleChart.MouseMoveEvent dragMouse).2.mp_Bounds = exampleChart.mp_Bounds ∧
    (exampleChart.MouseMoveEvent dragMouse).2.m_ChartBoundsValid = true ∧
    (exampleChart.MouseMoveEvent dragMouse).2.m_PlotsTransformValid = false := by
  have hsx : exampleChart.mp_AxisX.Point2.1 - exampleChart.mp_AxisX.Point1.1 ≠ 0 := by
    norm_num [exampleChart, exampleAxis]
  have hsy : exampleChart.mp_AxisY.Point2.2 - exampleChart.mp_AxisY.Point1.2 ≠ 0 := by
    norm_num [exampleChart, exampleAxis]
  obtain ⟨hx, hy, hb, hv, ht⟩ := MouseMoveEvent_unbounded_shift exampleChart dragMouse 25 (-10)
    rfl rfl
    (by norm_num [exampleChart, exampleAxis, dragMouse])
    (by norm_num [exampleChart, exampleAxis, dragMouse])
  obtain ⟨hx1, hx2, _⟩ := hx hsx
  obtain ⟨hy1, hy2, _⟩ := hy hsy
  refine ⟨rfl, rfl, hsx, hsy, ?_, ?_, ?_, ?_, hb, hv, ht⟩
  · rw [hx1]; norm_num [exampleChart, exampleAxis]
  · rw [hx2]; norm_num [exampleChart, exampleAxis]
  · rw [hy1]; norm_num [exampleChart, exampleAxis]
  · rw [hy2]; norm_num [exampleChart, exampleAxis]

/-- The chart built by the constructor has interaction enabled, bounds
disabled, zoom mode `BOTH` and both axis ranges equal to `[0, 0]`. -/
theorem New_ranges (base : VTKChartTimeSeries) (axisX axisY : vtkAxis) :
    (New base axisX axisY).m_InteractionEnabled = true ∧
    (New base axisX axisY).m_BoundsEnabled = false ∧
    (New base axisX axisY).m_ZoomMode = BOTH ∧
    (New base axisX axisY).mp_AxisX.Minimum = 0 ∧ (New base axisX axisY).mp_AxisX.Maximum = 0 ∧
    (New base axisX axisY).mp_AxisY.Minimum = 0 ∧ (New base axisX axisY).mp_AxisY.Maximum = 0 := by
  simp [New, SetBorders, Borders4.at, vtkChart_SetBorders, vtkAxis.SetRange, BOTH]

/-- With bounds disabled, one interaction keeps the bounds disabled and leaves
an axis with `min == max` as it is. -/
theorem interact_of_degenerate (s : VTKChartTimeSeries) (e : Interaction)
    (hB : s.m_BoundsEnabled = false) :
    (s.interact e).m_BoundsEnabled = false ∧
    (s.mp_AxisX.Minimum = s.mp_AxisX.Maximum → (s.interact e).mp_AxisX = s.mp_AxisX) ∧
    (s.mp_AxisY.Minimum = s.mp_AxisY.Maximum → (s.interact e).mp_AxisY = s.mp_AxisY) := by
  cases e with
  | PointerMove mouse =>
    refine ⟨by simp only [interact]; rw [(MouseMoveEvent_frame s mouse).2.2.1, hB], ?_, ?_⟩
    · intro h
      simp only [interact]
      by_cases hI : s.m_InteractionEnabled = true
      · rw [MouseMoveEvent_AxisX s mouse hI, hB, pan_of_degenerate _ _ _ _ h]
      · simp [MouseMoveEvent, hI]
    · intro h
      simp only [interact]
      by_cases hI : s.m_InteractionEnabled = true
      · rw [MouseMoveEvent_AxisY s mouse hI, hB, pan_of_degenerate _ _ _ _ h]
      · simp [MouseMoveEvent, hI]
  | Wheel delta =>
    refine ⟨by simp only [interact]; rw [(MouseWheelEvent_frame s delta).2.2.1, hB], ?_, ?_⟩
    · intro h
      simp only [interact]
      by_cases hI : s.m_InteractionEnabled = true
      · rw [MouseWheelEvent_AxisX s delta hI, hB, zoom_of_degenerate _ _ _ _ h]
        simp
      · simp [MouseWheelEvent, hI]
    · intro h
      simp only [interact]
      by_cases hI : s.m_InteractionEnabled = true
      · rw [MouseWheelEvent_AxisY s delta hI, hB, zoom_of_degenerate _ _ _ _ h]
        simp
      · simp [MouseWheelEvent, hI]
  | ZoomMode mode =>
    exact ⟨hB, fun _ => rfl, fun _ => rfl⟩

/-- With bounds disabled, a sequence of interactions keeps the bounds disabled
and leaves an axis with `min == max` as it is. -/
theorem interactions_of_degenerate (events : List Interaction) (s : VTKChartTimeSeries)
    (hB : s.m_BoundsEnabled = false) :
    (s.interactions events).m_BoundsEnabled = false ∧
    (s.mp_AxisX.Minimum = s.mp_AxisX.Maximum → (s.interactions events).mp_AxisX = s.mp_AxisX) ∧
    (s.mp_AxisY.Minimum = s.mp_AxisY.Maximum → (s.interactions events).mp_AxisY = s.mp_AxisY) := by
  induction events generalizing s with
  | nil => exact ⟨hB, fun _ => rfl, fun _ => rfl⟩
  | cons e es ih =>
    have hstep : s.interactions (e :: es) = (s.interact e).interactions es := by
      simp [interactions]
    obtain ⟨h1, h2, h3⟩ := interact_of_degenerate s e hB
    obtain ⟨k1, k2, k3⟩ := ih (s.interact e) h1
    rw [hstep]
    refine ⟨k1, ?_, ?_⟩
    · intro h
      have hx := h2 h
      rw [k2 (by rw [hx]; exact h), hx]
    · intro h
      have hy := h3 h
      rw [k3 (by rw [hy]; exact h), hy]

/-- With a non-zero screen span every value of the pan step is finite, and the
pair computed with the special values is the range committed by
`MouseMoveEvent.pan`. -/
theorem panIEEE_of_span_ne_zero (e : Bool) (b : Bounds4) (mouse : vtkContextMouseEvent)
    (i : Nat) (axis : vtkAxis) (hs : at2 axis.Point2 i - at2 axis.Point1 i ≠ 0) :
    MouseMoveEvent.panIEEE e b mouse i axis
      = (Double.finite (MouseMoveEvent.pan e b mouse i axis).Minimum,
          Double.finite (MouseMoveEvent.pan e b mouse i axis).Maximum) := by
  have hsub : (Double.finite axis.Maximum).sub (Double.finite axis.Minimum)
      = Double.finite (axis.Maximum - axis.Minimum) := by
    simp [Double.sub, Double.neg, Double.add, sub_eq_add_neg]
  simp only [MouseMoveEvent.panIEEE, MouseMoveEvent.pan, hsub, Double.add, Double.div,
    Double.mul, Double.lt, hs, if_false, decide_eq_true_eq, gt_iff_lt]
  split_ifs <;> simp_all [vtkAxis.SetRange]

/-- C22 (as stated, refuted): on `zeroSpanChart` bounds are disabled and the
horizontal range is `[3, 3]`, but the two screen endpoints of the axis
coincide: for the pointer move `dragMouse` the scale is `0/0`, a NaN, and the
range handed to `SetRange` is `[NaN, NaN]`, which is not `[3, 3]` and for which
`max == min` is false. -/
theorem pan_zero_span_degenerate_gives_NaN :
    zeroSpanChart.m_InteractionEnabled = true ∧ zeroSpanChart.m_BoundsEnabled = false ∧
    zeroSpanChart.mp_AxisX.Minimum = zeroSpanChart.mp_AxisX.Maximum ∧
    MouseMoveEvent.panIEEE zeroSpanChart.m_BoundsEnabled zeroSpanChart.mp_Bounds dragMouse 0
        zeroSpanChart.mp_AxisX = (Double.NaN, Double.NaN) ∧
    MouseMoveEvent.panIEEE zeroSpanChart.m_BoundsEnabled zeroSpanChart.mp_Bounds dragMouse 0
        zeroSpanChart.mp_AxisX
      ≠ (Double.finite zeroSpanChart.mp_AxisX.Minimum,
          Double.finite zeroSpanChart.mp_AxisX.Maximum) ∧
    Double.eq
        (MouseMoveEvent.panIEEE zeroSpanChart.m_BoundsEnabled zeroSpanChart.mp_Bounds dragMouse 0
          zeroSpanChart.mp_AxisX).2
        (MouseMoveEvent.panIEEE zeroSpanChart.m_BoundsEnabled zeroSpanChart.mp_Bounds dragMouse 0
          zeroSpanChart.mp_AxisX).1 = false := by
  have h : MouseMoveEvent.panIEEE zeroSpanChart.m_BoundsEnabled zeroSpanChart.mp_Bounds dragMouse 0
      zeroSpanChart.mp_AxisX = (Double.NaN, Double.NaN) := by
    simp [MouseMoveEvent.panIEEE, zeroSpanChart, exampleChart, dragMouse, at2, Double.sub,
      Double.neg, Double.add, Double.div, Double.mul, Double.lt]
  rw [h]
  refine ⟨rfl, rfl, rfl, rfl, ?_, rfl⟩
  simp

/-- C22 (amended): with bounds disabled, an axis whose range has `min == max`
is left unchanged by every wheel event, whatever the delta and the zoom mode;
and when its two screen endpoints differ along its dimension it is left
unchanged by every pointer-move event, whatever the pointer positions (the
range handed to `SetRange` is the finite pair `[min, max]`), hence by any
sequence of pointer moves, wheel steps and zoom-mode changes, after which
`min == max` still holds. -/
theorem degenerate_range_fixed (s : VTKChartTimeSeries) (mouse : vtkContextMouseEvent)
    (delta : Int) (events : List Interaction) (hB : s.m_BoundsEnabled = false) :
    (s.mp_AxisX.Minimum = s.mp_AxisX.Maximum →
      (s.MouseWheelEvent delta).2.mp_AxisX = s.mp_AxisX ∧
      (s.mp_AxisX.Point2.1 - s.mp_AxisX.Point1.1 ≠ 0 →
        MouseMoveEvent.panIEEE s.m_BoundsEnabled s.mp_Bounds mouse 0 s.mp_AxisX
          = (Double.finite s.mp_AxisX.Minimum, Double.finite s.mp_AxisX.Maximum) ∧
        (s.MouseMoveEvent mouse).2.mp_AxisX = s.mp_AxisX ∧
        (s.interactions events).mp_AxisX = s.mp_AxisX ∧
        (s.interactions events).mp_AxisX.Minimum = (s.interactions events).mp_AxisX.Maximum)) ∧
    (s.mp_AxisY.Minimum = s.mp_AxisY.Maximum →
      (s.MouseWheelEvent delta).2.mp_AxisY = s.mp_AxisY ∧
      (s.mp_AxisY.Point2.2 - s.mp_AxisY.Point1.2 ≠ 0 →
        MouseMoveEvent.panIEEE s.m_BoundsEnabled s.mp_Bounds mouse 1 s.mp_AxisY
          = (Double.finite s.mp_AxisY.Minimum, Double.finite s.mp_AxisY.Maximum) ∧
        (s.MouseMoveEvent mouse).2.mp_AxisY = s.mp_AxisY ∧
        (s.interactions events).mp_AxisY = s.mp_AxisY ∧
        (s.interactions events).mp_AxisY.Minimum = (s.interactions events).mp_AxisY.Maximum)) := by
  have hm := interact_of_degenerate s (Interaction.PointerMove mouse) hB
  have hw := interact_of_degenerate s (Interaction.Wheel delta) hB
  have hs := interactions_of_degenerate events s hB
  constructor
  · intro h
    refine ⟨hw.2.1 h, ?_⟩
    intro hspan
    have e := hs.2.1 h
    refine ⟨?_, hm.2.1 h, e, by rw [e]; exact h⟩
    rw [panIEEE_of_span_ne_zero _ _ _ _ _ (by simpa [at2] using hspan), hB,
      pan_of_degenerate _ _ _ _ h]
  · intro h
    refine ⟨hw.2.2 h, ?_⟩
    intro hspan
    have e := hs.2.2 h
    refine ⟨?_, hm.2.2 h, e, by rw [e]; exact h⟩
    rw [panIEEE_of_span_ne_zero _ _ _ _ _ (by simpa [at2] using hspan), hB,
      pan_of_degenerate _ _ _ _ h]

/-- C22 (amended), witness: on `degenerateChart` the horizontal range is
`[3, 3]` and the horizontal screen span is `400`; a pointer move, wheel events
of delta `-5` and `3` and changes of the zoom mode leave the range at `[3, 3]`. -/
theorem degenerate_range_fixed_witness :
    degenerateChart.m_BoundsEnabled = false ∧
    degenerateChart.mp_AxisX.Minimum = degenerateChart.mp_AxisX.Maximum ∧
    degenerateChart.mp_AxisX.Point2.1 - degenerateChart.mp_AxisX.Point1.1 ≠ 0 ∧
    (degenerateChart.MouseWheelEvent 7).2.mp_AxisX = exampleAxis 3 3 ∧
    MouseMoveEvent.panIEEE degenerateChart.m_BoundsEnabled degenerateChart.mp_Bounds dragMouse 0
        degenerateChart.mp_AxisX = (Double.finite 3, Double.finite 3) ∧
    (degenerateChart.MouseMoveEvent dragMouse).2.mp_AxisX = exampleAxis 3 3 ∧
    (degenerateChart.interactions
      [Interaction.Wheel (-5), Interaction.PointerMove dragMouse, Interaction.ZoomMode HORIZONTAL,
        Interaction.Wheel 3, Interaction.ZoomMode VERTICAL, Interaction.Wheel 3]).mp_AxisX
      = exampleAxis 3 3 := by
  have hd : degenerateChart.mp_AxisX.Minimum = degenerateChart.mp_AxisX.Maximum := rfl
  have hsp : degenerateChart.mp_AxisX.Point2.1 - degenerateChart.mp_AxisX.Point1.1 ≠ 0 := by
    norm_num [degenerateChart, exampleAxis]
  obtain ⟨hw, hrest⟩ := (degenerate_range_fixed degenerateChart dragMouse 7
    [Interaction.Wheel (-5), Interaction.PointerMove dragMouse, Interaction.ZoomMode HORIZONTAL,
      Interaction.Wheel 3, Interaction.ZoomMode VERTICAL, Interaction.Wheel 3] rfl).1 hd
  obtain ⟨h1, h2, h3, _⟩ := hrest hsp
  exact ⟨rfl, hd, hsp, hw, h1, h2, h3⟩

end VTKChartTimeSeries

end btk
